import Mathlib

/-!
Verification of the hftbacktest discrete-event backtesting core.

The driver code (`Backtest`, `MultiAssetSingleExchangeBacktest`) and the asset
builder are embedded from `src/hftbacktest/src/backtest/backtest.rs` and
`src/hftbacktest/src/backtest/mod.rs`.  Supporting modules that the driver
depends on (`evs.rs`, the processors in `proc`, `order.rs`, `types.rs`) are not
part of the sources; those parts are modelled from the specification and are
marked as such in their doc comments.  Processors are abstracted as records of
operations over an arbitrary state type, matching the `dyn LocalProcessor` /
`dyn Processor` trait objects the driver holds.

`i64` values are modelled as `Int` with wrapping applied exactly where the Rust
code performs arithmetic that can overflow (the `cur_ts + timeout` deadline
computations).  The unbounded scheduling loop is modelled with explicit fuel:
`none` means the fuel was exhausted before the loop returned.
-/

namespace HftSpec

/-- Greatest `i64` value, `2^63 - 1`. -/
def i64MAX : Int := 2 ^ 63 - 1

/-- Least `i64` value, `-2^63`. -/
def i64MIN : Int := -(2 ^ 63)

/-- Two's-complement wrapping of an integer into the `i64` range, the release
mode semantics of Rust `i64` addition when it overflows. -/
def wrapI64 (x : Int) : Int := (x + 2 ^ 63) % 2 ^ 64 - 2 ^ 63

/-- Modelled from the spec (`types.rs` is not among the sources):
`UNTIL_END_OF_DATA = i64::MAX`, the sentinel that is meant to disable a
timeout. -/
def UNTIL_END_OF_DATA : Int := i64MAX

/-- Modelled from the spec (`types.rs` is not among the sources): order side. -/
inductive Side where
  | Buy
  | Sell
deriving DecidableEq

/-- Modelled from the spec (`types.rs` is not among the sources): order type. -/
inductive OrdType where
  | Limit
  | Market
deriving DecidableEq

/-- Modelled from the spec (`types.rs` is not among the sources):
time in force. -/
inductive TimeInForce where
  | GTC
  | GTX
  | FOK
  | IOC
deriving DecidableEq

/-- Order identifier (`u64` in the code; no arithmetic is performed on it by
the driver, so a `Nat` carrier is faithful). -/
abbrev OrderId := Nat

/-- The error taxonomy of `BacktestError` in `src/hftbacktest/src/backtest/mod.rs`.
The `io::Error` payload of `DataError` is irrelevant to the driver's control
flow and is dropped. -/
inductive BacktestError where
  | OrderIdExist
  | OrderRequestInProcess
  | OrderNotFound
  | InvalidOrderRequest
  | InvalidOrderStatus
  | EndOfData
  | DataError
deriving DecidableEq

/-- Modelled from the spec (`types.rs` is not among the sources): the wait mode
of the scheduling loop. -/
inductive WaitOrderResponse where
  | none
  | any
  | specified (asset_no : Nat) (order_id : OrderId)
deriving DecidableEq

/-- Modelled from the spec (`types.rs` is not among the sources): an order
request as passed to `submit_order`; it carries its own side, which per the
spec the reference driver ignores.  `F` is the carrier of the `f64` fields,
which the driver only forwards and never computes with. -/
structure OrderRequest (F : Type) where
  order_id : OrderId
  price : F
  qty : F
  side : Side
  order_type : OrdType
  time_in_force : TimeInForce
deriving DecidableEq

/-- Modelled from the spec (`types.rs` is not among the sources): order status. -/
inductive OrdStatus where
  | New
  | Submitted
  | PartiallyFilled
  | Filled
  | Canceled
  | Expired
  | Rejected
deriving DecidableEq

/-- Modelled from the spec (`types.rs` is not among the sources): a live order
as stored in the local order book; only the attributes named by the spec's
data model are kept, and only as opaque payload for the driver. -/
structure Order (F : Type) where
  order_id : OrderId
  side : Side
  price : F
  qty : F
  status : OrdStatus
deriving DecidableEq

/-- Modelled from the spec (`types.rs` is not among the sources): a market
data event record. -/
structure Event (F : Type) where
  ev : Int
  exch_ts : Int
  local_ts : Int
  px : F
  qty : F
  order_id : Option OrderId
deriving DecidableEq

/-- Modelled from the spec (`types.rs` is not among the sources): the state
values the local processor exposes. -/
structure StateValues (F : Type) where
  position : F
  balance : F
  fee : F
deriving DecidableEq

/-- The `BuildError` variant used by the asset builder (`types.rs` is not among
the sources; the variant and its field-name payload are as the spec states). -/
inductive BuildError where
  | BuilderIncomplete (field : String)
deriving DecidableEq

/-- Modelled from the spec (`evs.rs` is not among the sources): the four
event-intent stream kinds. -/
inductive EventIntentKind where
  | LocalData
  | ExchData
  | LocalOrder
  | ExchOrder
deriving DecidableEq

/-- An entry returned by `EventSet::next`. -/
structure EvsEvent where
  asset_no : Nat
  kind : EventIntentKind
  timestamp : Int
deriving DecidableEq

/-- Modelled from the spec (`evs.rs` is not among the sources): for each asset,
four cells holding an `Option` next-timestamp, one per intent stream. -/
structure EventSet where
  localData : List (Option Int)
  exchData : List (Option Int)
  localOrder : List (Option Int)
  exchOrder : List (Option Int)
deriving DecidableEq

namespace EventSet

/-- `EventSet::new(n)`: all `4 × n` cells empty. -/
def new (n : Nat) : EventSet :=
  ⟨List.replicate n Option.none, List.replicate n Option.none,
   List.replicate n Option.none, List.replicate n Option.none⟩

/-- Sets the local-data cell of an asset. -/
def update_local_data (evs : EventSet) (asset_no : Nat) (ts : Int) : EventSet :=
  { evs with localData := evs.localData.set asset_no (some ts) }

/-- Sets the exchange-data cell of an asset. -/
def update_exch_data (evs : EventSet) (asset_no : Nat) (ts : Int) : EventSet :=
  { evs with exchData := evs.exchData.set asset_no (some ts) }

/-- Clears the local-data cell of an asset (after `EndOfData`). -/
def invalidate_local_data (evs : EventSet) (asset_no : Nat) : EventSet :=
  { evs with localData := evs.localData.set asset_no Option.none }

/-- Clears the exchange-data cell of an asset (after `EndOfData`). -/
def invalidate_exch_data (evs : EventSet) (asset_no : Nat) : EventSet :=
  { evs with exchData := evs.exchData.set asset_no Option.none }

/-- Refreshes the local-order cell of an asset from an order-bus peek. -/
def update_local_order (evs : EventSet) (asset_no : Nat) (ts : Option Int) : EventSet :=
  { evs with localOrder := evs.localOrder.set asset_no ts }

/-- Refreshes the exchange-order cell of an asset from an order-bus peek. -/
def update_exch_order (evs : EventSet) (asset_no : Nat) (ts : Option Int) : EventSet :=
  { evs with exchOrder := evs.exchOrder.set asset_no ts }

/-- The non-empty cells of one stream kind, in ascending asset order. -/
def kindEvents (cells : List (Option Int)) (kind : EventIntentKind) : List EvsEvent :=
  cells.enum.filterMap fun ic => ic.2.map fun t => ⟨ic.1, kind, t⟩

/-- All non-empty cells, listed in the spec's dispatch-priority order:
`ExchData < LocalData < ExchOrder < LocalOrder`, then ascending asset index. -/
def candidates (evs : EventSet) : List EvsEvent :=
  kindEvents evs.exchData .ExchData ++ kindEvents evs.localData .LocalData ++
    kindEvents evs.exchOrder .ExchOrder ++ kindEvents evs.localOrder .LocalOrder

/-- `EventSet::next()`: the minimum-timestamp cell, ties broken by the
priority order of `candidates`; `none` when every cell is empty. -/
def next (evs : EventSet) : Option EvsEvent :=
  evs.candidates.foldl
    (fun best c =>
      match best with
      | Option.none => some c
      | some b => if c.timestamp < b.timestamp then some c else some b)
    Option.none

end EventSet

/-- The `dyn LocalProcessor<MD, Event>` interface the driver drives
(`proc` is not among the sources; the operation contracts are modelled from
the spec, §4.2).  `σ` is the processor's private state; every `&mut self`
operation returns the successor state even on error.  `F` carries the `f64`
values the driver forwards opaquely; `MD` is the market-depth type. -/
structure LocalProc (σ F MD : Type) where
  initialize_data : σ → Except BacktestError Int × σ
  process_data : σ → Except BacktestError (Int × Int) × σ
  process_recv_order : σ → Int → Option OrderId → Except BacktestError Bool × σ
  submit_order :
    σ → OrderId → Side → F → F → OrdType → TimeInForce → Int →
      Except BacktestError Unit × σ
  cancel : σ → OrderId → Int → Except BacktestError Unit × σ
  earliest_send_order_timestamp : σ → Option Int
  earliest_recv_order_timestamp : σ → Option Int
  position : σ → F
  state_values : σ → StateValues F
  depth : σ → MD
  trade : σ → List (Event F)
  orders : σ → List (OrderId × Order F)
  clear_last_trades : σ → σ
  clear_inactive_orders : σ → σ
  feed_latency : σ → Option (Int × Int)
  order_latency : σ → Option (Int × Int × Int)

/-- The `dyn Processor` (exchange-side) interface the driver drives
(`proc` is not among the sources; the operation contracts are modelled from
the spec, §4.3).  `τ` is the processor's private state. -/
structure ExchProc (τ : Type) where
  initialize_data : τ → Except BacktestError Int × τ
  process_data : τ → Except BacktestError (Int × Int) × τ
  process_recv_order : τ → Int → Option OrderId → Except BacktestError Bool × τ
  earliest_send_order_timestamp : τ → Option Int
  earliest_recv_order_timestamp : τ → Option Int

/-- The state shared by both drivers: `Backtest` and
`MultiAssetSingleExchangeBacktest` in the source are two structs with exactly
these fields (`cur_ts`, `evs`, `local`, `exch`; the latter's `PhantomData`
marker carries no data), so one Lean structure embeds both.  The two drivers'
operations are embedded separately below. -/
structure BacktestState (σ τ : Type) where
  cur_ts : Int
  evs : EventSet
  locals : List σ
  exch : List τ
deriving DecidableEq

namespace Backtest

variable {σ τ F MD : Type}

/-- `Backtest::initialize_evs` (backtest.rs:93-117): run `initialize_data` on
every local processor then every exchange processor, updating the data cell on
success, invalidating it on `EndOfData`, and propagating any other error. -/
def initLocalLoop (lp : LocalProc σ F MD) :
    Nat → List σ → EventSet → Except BacktestError (List σ × EventSet)
  | _, [], evs => .ok ([], evs)
  | asset_no, s :: rest, evs =>
    match lp.initialize_data s with
    | (.ok ts, s') =>
      (initLocalLoop lp (asset_no + 1) rest (evs.update_local_data asset_no ts)).map
        fun le => (s' :: le.1, le.2)
    | (.error .EndOfData, s') =>
      (initLocalLoop lp (asset_no + 1) rest (evs.invalidate_local_data asset_no)).map
        fun le => (s' :: le.1, le.2)
    | (.error e, _) => .error e

/-- Exchange half of `Backtest::initialize_evs`. -/
def initExchLoop (ep : ExchProc τ) :
    Nat → List τ → EventSet → Except BacktestError (List τ × EventSet)
  | _, [], evs => .ok ([], evs)
  | asset_no, s :: rest, evs =>
    match ep.initialize_data s with
    | (.ok ts, s') =>
      (initExchLoop ep (asset_no + 1) rest (evs.update_exch_data asset_no ts)).map
        fun le => (s' :: le.1, le.2)
    | (.error .EndOfData, s') =>
      (initExchLoop ep (asset_no + 1) rest (evs.invalidate_exch_data asset_no)).map
        fun le => (s' :: le.1, le.2)
    | (.error e, _) => .error e

/-- `Backtest::initialize_evs` assembled from its two loops. -/
def initialize_evs (lp : LocalProc σ F MD) (ep : ExchProc τ)
    (st : BacktestState σ τ) : Except BacktestError (BacktestState σ τ) :=
  match initLocalLoop lp 0 st.locals st.evs with
  | .error e => .error e
  | .ok (local', evs') =>
    match initExchLoop ep 0 st.exch evs' with
    | .error e => .error e
    | .ok (exch', evs'') =>
      .ok { st with locals := local', exch := exch', evs := evs'' }

/-- The refresh at the head of `Backtest::goto` (backtest.rs:140-145): for
each asset, rewrite the exchange-order and local-order cells from the local
processor's order-bus peeks. -/
def refreshLoop (lp : LocalProc σ F MD) :
    Nat → List σ → EventSet → EventSet
  | _, [], evs => evs
  | asset_no, s :: rest, evs =>
    refreshLoop lp (asset_no + 1) rest
      ((evs.update_exch_order asset_no (lp.earliest_send_order_timestamp s)).update_local_order
        asset_no (lp.earliest_recv_order_timestamp s))

/-- The dispatch block of `Backtest::goto`'s `loop` — the `match ev.kind`
statement at backtest.rs:153-216.  Returns the (possibly shortened) deadline
and the successor state, or propagates the processor error.  The `LocalData`
(under `WAIT_NEXT_FEED`) and `LocalOrder` branches may shorten the deadline
`timestamp`; `process_data` failing with `EndOfData` invalidates only the
dispatched cell. -/
def dispatch [Inhabited σ] [Inhabited τ] (lp : LocalProc σ F MD) (ep : ExchProc τ)
    (WAIT_NEXT_FEED : Bool) (wait_order_response : WaitOrderResponse)
    (ev : EvsEvent) (timestamp : Int) (st : BacktestState σ τ) :
    Except BacktestError (Int × BacktestState σ τ) :=
  match ev.kind with
  | .LocalData =>
    let s := st.locals.getD ev.asset_no default
    match lp.process_data s with
    | (.ok (next_ts, _), s') =>
      .ok (if WAIT_NEXT_FEED then ev.timestamp else timestamp,
        { st with
          locals := st.locals.set ev.asset_no s'
          evs := st.evs.update_local_data ev.asset_no next_ts })
    | (.error .EndOfData, s') =>
      .ok (if WAIT_NEXT_FEED then ev.timestamp else timestamp,
        { st with
          locals := st.locals.set ev.asset_no s'
          evs := st.evs.invalidate_local_data ev.asset_no })
    | (.error e, _) => .error e
  | .LocalOrder =>
    let s := st.locals.getD ev.asset_no default
    let wait_order_resp_id :=
      match wait_order_response with
      | .specified wait_order_asset_no wait_order_id =>
        if ev.asset_no = wait_order_asset_no then some wait_order_id
        else Option.none
      | _ => Option.none
    match lp.process_recv_order s ev.timestamp wait_order_resp_id with
    | (.ok observed, s') =>
      .ok (if observed = true ∨ wait_order_response = .any then ev.timestamp
           else timestamp,
        { st with
          locals := st.locals.set ev.asset_no s'
          evs :=
            st.evs.update_local_order ev.asset_no
              (lp.earliest_recv_order_timestamp s') })
    | (.error e, _) => .error e
  | .ExchData =>
    let s := st.exch.getD ev.asset_no default
    match ep.process_data s with
    | (.ok (next_ts, _), s') =>
      .ok (timestamp,
        { st with
          exch := st.exch.set ev.asset_no s'
          evs :=
            (st.evs.update_exch_data ev.asset_no next_ts).update_local_order
              ev.asset_no (ep.earliest_send_order_timestamp s') })
    | (.error .EndOfData, s') =>
      .ok (timestamp,
        { st with
          exch := st.exch.set ev.asset_no s'
          evs :=
            (st.evs.invalidate_exch_data ev.asset_no).update_local_order
              ev.asset_no (ep.earliest_send_order_timestamp s') })
    | (.error e, _) => .error e
  | .ExchOrder =>
    let s := st.exch.getD ev.asset_no default
    match ep.process_recv_order s ev.timestamp Option.none with
    | (.ok _, s') =>
      .ok (timestamp,
        { st with
          exch := st.exch.set ev.asset_no s'
          evs :=
            st.evs.update_exch_order ev.asset_no
              (ep.earliest_recv_order_timestamp s') })
    | (.error e, _) => .error e

/-- The `loop` of `Backtest::goto` (backtest.rs:146-222), with explicit fuel;
`none` means the fuel ran out before the loop returned.  `timestamp` is the
current deadline. -/
def gotoLoop [Inhabited σ] [Inhabited τ] (lp : LocalProc σ F MD) (ep : ExchProc τ)
    (WAIT_NEXT_FEED : Bool) (wait_order_response : WaitOrderResponse) :
    Nat → Int → BacktestState σ τ →
      Option (Except BacktestError (Bool × BacktestState σ τ))
  | 0, _, _ => Option.none
  | fuel + 1, timestamp, st =>
    match st.evs.next with
    | Option.none => some (.ok (false, st))
    | some ev =>
      if ev.timestamp > timestamp then
        some (.ok (true, { st with cur_ts := timestamp }))
      else
        match dispatch lp ep WAIT_NEXT_FEED wait_order_response ev timestamp st with
        | .error e => some (.error e)
        | .ok (timestamp', st') =>
          gotoLoop lp ep WAIT_NEXT_FEED wait_order_response fuel timestamp' st'

/-- `Backtest::goto` (backtest.rs:134-223): refresh the order cells of every
asset, then run the scheduling loop. -/
def goto [Inhabited σ] [Inhabited τ] (lp : LocalProc σ F MD) (ep : ExchProc τ)
    (WAIT_NEXT_FEED : Bool) (fuel : Nat) (timestamp : Int)
    (wait_order_response : WaitOrderResponse) (st : BacktestState σ τ) :
    Option (Except BacktestError (Bool × BacktestState σ τ)) :=
  gotoLoop lp ep WAIT_NEXT_FEED wait_order_response fuel timestamp
    { st with evs := refreshLoop lp 0 st.locals st.evs }

/-- `Backtest::goto_end` (backtest.rs:119-132): lazily initialize, then run
the loop to `UNTIL_END_OF_DATA` with no wait condition. -/
def goto_end [Inhabited σ] [Inhabited τ] (lp : LocalProc σ F MD) (ep : ExchProc τ)
    (fuel : Nat) (st : BacktestState σ τ) :
    Option (Except BacktestError (Bool × BacktestState σ τ)) :=
  if st.cur_ts = i64MAX then
    match initialize_evs lp ep st with
    | .error e => some (.error e)
    | .ok st' =>
      match st'.evs.next with
      | some ev =>
        goto lp ep false fuel UNTIL_END_OF_DATA .none { st' with cur_ts := ev.timestamp }
      | Option.none => some (.ok (false, st'))
  else goto lp ep false fuel UNTIL_END_OF_DATA .none st

/-- `<Backtest as Bot>::elapse` (backtest.rs:441-455).  The deadline
`self.cur_ts + duration` is an `i64` addition and wraps on overflow. -/
def elapse [Inhabited σ] [Inhabited τ] (lp : LocalProc σ F MD) (ep : ExchProc τ)
    (fuel : Nat) (duration : Int) (st : BacktestState σ τ) :
    Option (Except BacktestError (Bool × BacktestState σ τ)) :=
  if st.cur_ts = i64MAX then
    match initialize_evs lp ep st with
    | .error e => some (.error e)
    | .ok st' =>
      match st'.evs.next with
      | some ev =>
        let st'' := { st' with cur_ts := ev.timestamp }
        goto lp ep false fuel (wrapI64 (st''.cur_ts + duration)) .none st''
      | Option.none => some (.ok (false, st'))
  else goto lp ep false fuel (wrapI64 (st.cur_ts + duration)) .none st

/-- `<Backtest as Bot>::wait_order_response` (backtest.rs:404-415): runs the
loop directly, with no lazy-initialization check; the deadline
`self.cur_ts + timeout` wraps on overflow. -/
def wait_order_response [Inhabited σ] [Inhabited τ] (lp : LocalProc σ F MD)
    (ep : ExchProc τ) (fuel : Nat) (asset_no : Nat) (order_id : OrderId)
    (timeout : Int) (st : BacktestState σ τ) :
    Option (Except BacktestError (Bool × BacktestState σ τ)) :=
  goto lp ep false fuel (wrapI64 (st.cur_ts + timeout))
    (.specified asset_no order_id) st

/-- `<Backtest as Bot>::wait_next_feed` (backtest.rs:417-439). -/
def wait_next_feed [Inhabited σ] [Inhabited τ] (lp : LocalProc σ F MD)
    (ep : ExchProc τ) (fuel : Nat) (include_order_resp : Bool) (timeout : Int)
    (st : BacktestState σ τ) :
    Option (Except BacktestError (Bool × BacktestState σ τ)) :=
  if st.cur_ts = i64MAX then
    match initialize_evs lp ep st with
    | .error e => some (.error e)
    | .ok st' =>
      match st'.evs.next with
      | some ev =>
        let st'' := { st' with cur_ts := ev.timestamp }
        if include_order_resp then
          goto lp ep true fuel (wrapI64 (st''.cur_ts + timeout)) .any st''
        else
          goto lp ep true fuel (wrapI64 (st''.cur_ts + timeout)) .none st''
      | Option.none => some (.ok (false, st'))
  else
    if include_order_resp then
      goto lp ep true fuel (wrapI64 (st.cur_ts + timeout)) .any st
    else
      goto lp ep true fuel (wrapI64 (st.cur_ts + timeout)) .none st

/-- `<Backtest as Bot>::submit_buy_order` (backtest.rs:281-309): submit with
side `Buy`; if `wait`, run the loop with `Specified(asset_no, order_id)` and
deadline `UNTIL_END_OF_DATA`.  No lazy-initialization check is performed. -/
def submit_buy_order [Inhabited σ] [Inhabited τ] (lp : LocalProc σ F MD)
    (ep : ExchProc τ) (fuel : Nat) (asset_no : Nat) (order_id : OrderId)
    (price : F) (qty : F) (time_in_force : TimeInForce) (order_type : OrdType)
    (wait : Bool) (st : BacktestState σ τ) :
    Option (Except BacktestError (Bool × BacktestState σ τ)) :=
  let s := st.locals.getD asset_no default
  match lp.submit_order s order_id .Buy price qty order_type time_in_force st.cur_ts with
  | (.error e, _) => some (.error e)
  | (.ok _, s') =>
    let st' := { st with locals := st.locals.set asset_no s' }
    if wait then
      goto lp ep false fuel UNTIL_END_OF_DATA (.specified asset_no order_id) st'
    else some (.ok (true, st'))

/-- `<Backtest as Bot>::submit_sell_order` (backtest.rs:311-340): as
`submit_buy_order` but with side `Sell`. -/
def submit_sell_order [Inhabited σ] [Inhabited τ] (lp : LocalProc σ F MD)
    (ep : ExchProc τ) (fuel : Nat) (asset_no : Nat) (order_id : OrderId)
    (price : F) (qty : F) (time_in_force : TimeInForce) (order_type : OrdType)
    (wait : Bool) (st : BacktestState σ τ) :
    Option (Except BacktestError (Bool × BacktestState σ τ)) :=
  let s := st.locals.getD asset_no default
  match lp.submit_order s order_id .Sell price qty order_type time_in_force st.cur_ts with
  | (.error e, _) => some (.error e)
  | (.ok _, s') =>
    let st' := { st with locals := st.locals.set asset_no s' }
    if wait then
      goto lp ep false fuel UNTIL_END_OF_DATA (.specified asset_no order_id) st'
    else some (.ok (true, st'))

/-- `<Backtest as Bot>::submit_order` (backtest.rs:342-366): forwards the
request with the hard-coded side `Side::Sell`, as the source does, ignoring
`order.side`. -/
def submit_order [Inhabited σ] [Inhabited τ] (lp : LocalProc σ F MD)
    (ep : ExchProc τ) (fuel : Nat) (asset_no : Nat) (order : OrderRequest F)
    (wait : Bool) (st : BacktestState σ τ) :
    Option (Except BacktestError (Bool × BacktestState σ τ)) :=
  let s := st.locals.getD asset_no default
  match lp.submit_order s order.order_id .Sell order.price order.qty
      order.order_type order.time_in_force st.cur_ts with
  | (.error e, _) => some (.error e)
  | (.ok _, s') =>
    let st' := { st with locals := st.locals.set asset_no s' }
    if wait then
      goto lp ep false fuel UNTIL_END_OF_DATA (.specified asset_no order.order_id) st'
    else some (.ok (true, st'))

/-- `<Backtest as Bot>::cancel` (backtest.rs:368-385). -/
def cancel [Inhabited σ] [Inhabited τ] (lp : LocalProc σ F MD)
    (ep : ExchProc τ) (fuel : Nat) (asset_no : Nat) (order_id : OrderId)
    (wait : Bool) (st : BacktestState σ τ) :
    Option (Except BacktestError (Bool × BacktestState σ τ)) :=
  let s := st.locals.getD asset_no default
  match lp.cancel s order_id st.cur_ts with
  | (.error e, _) => some (.error e)
  | (.ok _, s') =>
    let st' := { st with locals := st.locals.set asset_no s' }
    if wait then
      goto lp ep false fuel UNTIL_END_OF_DATA (.specified asset_no order_id) st'
    else some (.ok (true, st'))

/-- `<Backtest as Bot>::current_timestamp`. -/
def current_timestamp (st : BacktestState σ τ) : Int := st.cur_ts

/-- `<Backtest as Bot>::num_assets`. -/
def num_assets (st : BacktestState σ τ) : Nat := st.locals.length

/-- `<Backtest as Bot>::position` (backtest.rs:243-245):
`self.local.get(asset_no).unwrap().position()`; the `unwrap` panic on an
out-of-range index is modelled as `none`. -/
def position (lp : LocalProc σ F MD) (st : BacktestState σ τ) (asset_no : Nat) :
    Option F :=
  (st.locals.get? asset_no).map lp.position

/-- `<Backtest as Bot>::state_values`; `unwrap` panic modelled as `none`. -/
def state_values (lp : LocalProc σ F MD) (st : BacktestState σ τ)
    (asset_no : Nat) : Option (StateValues F) :=
  (st.locals.get? asset_no).map lp.state_values

/-- `<Backtest as Bot>::depth`; `unwrap` panic modelled as `none`. -/
def depth (lp : LocalProc σ F MD) (st : BacktestState σ τ) (asset_no : Nat) :
    Option MD :=
  (st.locals.get? asset_no).map lp.depth

/-- `<Backtest as Bot>::trade`; `unwrap` panic modelled as `none`. -/
def trade (lp : LocalProc σ F MD) (st : BacktestState σ τ) (asset_no : Nat) :
    Option (List (Event F)) :=
  (st.locals.get? asset_no).map lp.trade

/-- `<Backtest as Bot>::orders`; `unwrap` panic modelled as `none`. -/
def orders (lp : LocalProc σ F MD) (st : BacktestState σ τ) (asset_no : Nat) :
    Option (List (OrderId × Order F)) :=
  (st.locals.get? asset_no).map lp.orders

/-- `<Backtest as Bot>::feed_latency`; `unwrap` panic modelled as the outer
`none`. -/
def feed_latency (lp : LocalProc σ F MD) (st : BacktestState σ τ)
    (asset_no : Nat) : Option (Option (Int × Int)) :=
  (st.locals.get? asset_no).map lp.feed_latency

/-- `<Backtest as Bot>::order_latency`; `unwrap` panic modelled as the outer
`none`. -/
def order_latency (lp : LocalProc σ F MD) (st : BacktestState σ τ)
    (asset_no : Nat) : Option (Option (Int × Int × Int)) :=
  (st.locals.get? asset_no).map lp.order_latency

/-- `<Backtest as Bot>::clear_last_trades`. -/
def clear_last_trades [Inhabited σ] (lp : LocalProc σ F MD) (st : BacktestState σ τ)
    (asset_no : Option Nat) : BacktestState σ τ :=
  match asset_no with
  | some an =>
    { st with
      locals := st.locals.set an (lp.clear_last_trades (st.locals.getD an default)) }
  | Option.none => { st with locals := st.locals.map lp.clear_last_trades }

/-- `<Backtest as Bot>::clear_inactive_orders`. -/
def clear_inactive_orders [Inhabited σ] (lp : LocalProc σ F MD) (st : BacktestState σ τ)
    (asset_no : Option Nat) : BacktestState σ τ :=
  match asset_no with
  | some an =>
    { st with
      locals := st.locals.set an (lp.clear_inactive_orders (st.locals.getD an default)) }
  | Option.none => { st with locals := st.locals.map lp.clear_inactive_orders }

end Backtest

namespace MultiAssetSingleExchangeBacktest

variable {σ τ F MD : Type}

/-- `MultiAssetSingleExchangeBacktest::initialize_evs` (backtest.rs:555-579),
local half; the body is a copy of the `Backtest` version. -/
def initLocalLoop (lp : LocalProc σ F MD) :
    Nat → List σ → EventSet → Except BacktestError (List σ × EventSet)
  | _, [], evs => .ok ([], evs)
  | asset_no, s :: rest, evs =>
    match lp.initialize_data s with
    | (.ok ts, s') =>
      (initLocalLoop lp (asset_no + 1) rest (evs.update_local_data asset_no ts)).map
        fun le => (s' :: le.1, le.2)
    | (.error .EndOfData, s') =>
      (initLocalLoop lp (asset_no + 1) rest (evs.invalidate_local_data asset_no)).map
        fun le => (s' :: le.1, le.2)
    | (.error e, _) => .error e

/-- Exchange half of `MultiAssetSingleExchangeBacktest::initialize_evs`. -/
def initExchLoop (ep : ExchProc τ) :
    Nat → List τ → EventSet → Except BacktestError (List τ × EventSet)
  | _, [], evs => .ok ([], evs)
  | asset_no, s :: rest, evs =>
    match ep.initialize_data s with
    | (.ok ts, s') =>
      (initExchLoop ep (asset_no + 1) rest (evs.update_exch_data asset_no ts)).map
        fun le => (s' :: le.1, le.2)
    | (.error .EndOfData, s') =>
      (initExchLoop ep (asset_no + 1) rest (evs.invalidate_exch_data asset_no)).map
        fun le => (s' :: le.1, le.2)
    | (.error e, _) => .error e

/-- `MultiAssetSingleExchangeBacktest::initialize_evs` assembled. -/
def initialize_evs (lp : LocalProc σ F MD) (ep : ExchProc τ)
    (st : BacktestState σ τ) : Except BacktestError (BacktestState σ τ) :=
  match initLocalLoop lp 0 st.locals st.evs with
  | .error e => .error e
  | .ok (local', evs') =>
    match initExchLoop ep 0 st.exch evs' with
    | .error e => .error e
    | .ok (exch', evs'') =>
      .ok { st with locals := local', exch := exch', evs := evs'' }

/-- Order-cell refresh at the head of
`MultiAssetSingleExchangeBacktest::goto` (backtest.rs:587-592). -/
def refreshLoop (lp : LocalProc σ F MD) :
    Nat → List σ → EventSet → EventSet
  | _, [], evs => evs
  | asset_no, s :: rest, evs =>
    refreshLoop lp (asset_no + 1) rest
      ((evs.update_exch_order asset_no (lp.earliest_send_order_timestamp s)).update_local_order
        asset_no (lp.earliest_recv_order_timestamp s))

/-- The dispatch block of `MultiAssetSingleExchangeBacktest::goto`'s `loop`
(the `match ev.kind` at backtest.rs:600-663); a copy of the `Backtest`
dispatch. -/
def dispatch [Inhabited σ] [Inhabited τ] (lp : LocalProc σ F MD) (ep : ExchProc τ)
    (WAIT_NEXT_FEED : Bool) (wait_order_response : WaitOrderResponse)
    (ev : EvsEvent) (timestamp : Int) (st : BacktestState σ τ) :
    Except BacktestError (Int × BacktestState σ τ) :=
  match ev.kind with
  | .LocalData =>
    let s := st.locals.getD ev.asset_no default
    match lp.process_data s with
    | (.ok (next_ts, _), s') =>
      .ok (if WAIT_NEXT_FEED then ev.timestamp else timestamp,
        { st with
          locals := st.locals.set ev.asset_no s'
          evs := st.evs.update_local_data ev.asset_no next_ts })
    | (.error .EndOfData, s') =>
      .ok (if WAIT_NEXT_FEED then ev.timestamp else timestamp,
        { st with
          locals := st.locals.set ev.asset_no s'
          evs := st.evs.invalidate_local_data ev.asset_no })
    | (.error e, _) => .error e
  | .LocalOrder =>
    let s := st.locals.getD ev.asset_no default
    let wait_order_resp_id :=
      match wait_order_response with
      | .specified wait_order_asset_no wait_order_id =>
        if ev.asset_no = wait_order_asset_no then some wait_order_id
        else Option.none
      | _ => Option.none
    match lp.process_recv_order s ev.timestamp wait_order_resp_id with
    | (.ok observed, s') =>
      .ok (if observed = true ∨ wait_order_response = .any then ev.timestamp
           else timestamp,
        { st with
          locals := st.locals.set ev.asset_no s'
          evs :=
            st.evs.update_local_order ev.asset_no
              (lp.earliest_recv_order_timestamp s') })
    | (.error e, _) => .error e
  | .ExchData =>
    let s := st.exch.getD ev.asset_no default
    match ep.process_data s with
    | (.ok (next_ts, _), s') =>
      .ok (timestamp,
        { st with
          exch := st.exch.set ev.asset_no s'
          evs :=
            (st.evs.update_exch_data ev.asset_no next_ts).update_local_order
              ev.asset_no (ep.earliest_send_order_timestamp s') })
    | (.error .EndOfData, s') =>
      .ok (timestamp,
        { st with
          exch := st.exch.set ev.asset_no s'
          evs :=
            (st.evs.invalidate_exch_data ev.asset_no).update_local_order
              ev.asset_no (ep.earliest_send_order_timestamp s') })
    | (.error e, _) => .error e
  | .ExchOrder =>
    let s := st.exch.getD ev.asset_no default
    match ep.process_recv_order s ev.timestamp Option.none with
    | (.ok _, s') =>
      .ok (timestamp,
        { st with
          exch := st.exch.set ev.asset_no s'
          evs :=
            st.evs.update_exch_order ev.asset_no
              (ep.earliest_recv_order_timestamp s') })
    | (.error e, _) => .error e

/-- The `loop` of `MultiAssetSingleExchangeBacktest::goto`
(backtest.rs:593-669); a copy of the `Backtest` loop. -/
def gotoLoop [Inhabited σ] [Inhabited τ] (lp : LocalProc σ F MD) (ep : ExchProc τ)
    (WAIT_NEXT_FEED : Bool) (wait_order_response : WaitOrderResponse) :
    Nat → Int → BacktestState σ τ →
      Option (Except BacktestError (Bool × BacktestState σ τ))
  | 0, _, _ => Option.none
  | fuel + 1, timestamp, st =>
    match st.evs.next with
    | Option.none => some (.ok (false, st))
    | some ev =>
      if ev.timestamp > timestamp then
        some (.ok (true, { st with cur_ts := timestamp }))
      else
        match dispatch lp ep WAIT_NEXT_FEED wait_order_response ev timestamp st with
        | .error e => some (.error e)
        | .ok (timestamp', st') =>
          gotoLoop lp ep WAIT_NEXT_FEED wait_order_response fuel timestamp' st'

/-- `MultiAssetSingleExchangeBacktest::goto` (backtest.rs:581-670). -/
def goto [Inhabited σ] [Inhabited τ] (lp : LocalProc σ F MD) (ep : ExchProc τ)
    (WAIT_NEXT_FEED : Bool) (fuel : Nat) (timestamp : Int)
    (wait_order_response : WaitOrderResponse) (st : BacktestState σ τ) :
    Option (Except BacktestError (Bool × BacktestState σ τ)) :=
  gotoLoop lp ep WAIT_NEXT_FEED wait_order_response fuel timestamp
    { st with evs := refreshLoop lp 0 st.locals st.evs }

/-- `<MultiAssetSingleExchangeBacktest as Bot>::elapse` (backtest.rs:901-915). -/
def elapse [Inhabited σ] [Inhabited τ] (lp : LocalProc σ F MD) (ep : ExchProc τ)
    (fuel : Nat) (duration : Int) (st : BacktestState σ τ) :
    Option (Except BacktestError (Bool × BacktestState σ τ)) :=
  if st.cur_ts = i64MAX then
    match initialize_evs lp ep st with
    | .error e => some (.error e)
    | .ok st' =>
      match st'.evs.next with
      | some ev =>
        let st'' := { st' with cur_ts := ev.timestamp }
        goto lp ep false fuel (wrapI64 (st''.cur_ts + duration)) .none st''
      | Option.none => some (.ok (false, st'))
  else goto lp ep false fuel (wrapI64 (st.cur_ts + duration)) .none st

/-- `<MultiAssetSingleExchangeBacktest as Bot>::wait_order_response`
(backtest.rs:865-876): no lazy-initialization check. -/
def wait_order_response [Inhabited σ] [Inhabited τ] (lp : LocalProc σ F MD)
    (ep : ExchProc τ) (fuel : Nat) (asset_no : Nat) (order_id : OrderId)
    (timeout : Int) (st : BacktestState σ τ) :
    Option (Except BacktestError (Bool × BacktestState σ τ)) :=
  goto lp ep false fuel (wrapI64 (st.cur_ts + timeout))
    (.specified asset_no order_id) st

/-- `<MultiAssetSingleExchangeBacktest as Bot>::wait_next_feed`
(backtest.rs:878-899). -/
def wait_next_feed [Inhabited σ] [Inhabited τ] (lp : LocalProc σ F MD)
    (ep : ExchProc τ) (fuel : Nat) (include_order_resp : Bool) (timeout : Int)
    (st : BacktestState σ τ) :
    Option (Except BacktestError (Bool × BacktestState σ τ)) :=
  if st.cur_ts = i64MAX then
    match initialize_evs lp ep st with
    | .error e => some (.error e)
    | .ok st' =>
      match st'.evs.next with
      | some ev =>
        let st'' := { st' with cur_ts := ev.timestamp }
        if include_order_resp then
          goto lp ep true fuel (wrapI64 (st''.cur_ts + timeout)) .any st''
        else
          goto lp ep true fuel (wrapI64 (st''.cur_ts + timeout)) .none st''
      | Option.none => some (.ok (false, st'))
  else
    if include_order_resp then
      goto lp ep true fuel (wrapI64 (st.cur_ts + timeout)) .any st
    else
      goto lp ep true fuel (wrapI64 (st.cur_ts + timeout)) .none st

/-- `<MultiAssetSingleExchangeBacktest as Bot>::submit_buy_order`
(backtest.rs:730-760): unlike the `Backtest` version it additionally refreshes
the exchange-order cell of the asset before (possibly) running the loop. -/
def submit_buy_order [Inhabited σ] [Inhabited τ] (lp : LocalProc σ F MD)
    (ep : ExchProc τ) (fuel : Nat) (asset_no : Nat) (order_id : OrderId)
    (price : F) (qty : F) (time_in_force : TimeInForce) (order_type : OrdType)
    (wait : Bool) (st : BacktestState σ τ) :
    Option (Except BacktestError (Bool × BacktestState σ τ)) :=
  let s := st.locals.getD asset_no default
  match lp.submit_order s order_id .Buy price qty order_type time_in_force st.cur_ts with
  | (.error e, _) => some (.error e)
  | (.ok _, s') =>
    let st' :=
      { st with
        locals := st.locals.set asset_no s'
        evs :=
          st.evs.update_exch_order asset_no (lp.earliest_send_order_timestamp s') }
    if wait then
      goto lp ep false fuel UNTIL_END_OF_DATA (.specified asset_no order_id) st'
    else some (.ok (true, st'))

/-- `<MultiAssetSingleExchangeBacktest as Bot>::submit_sell_order`
(backtest.rs:762-793). -/
def submit_sell_order [Inhabited σ] [Inhabited τ] (lp : LocalProc σ F MD)
    (ep : ExchProc τ) (fuel : Nat) (asset_no : Nat) (order_id : OrderId)
    (price : F) (qty : F) (time_in_force : TimeInForce) (order_type : OrdType)
    (wait : Bool) (st : BacktestState σ τ) :
    Option (Except BacktestError (Bool × BacktestState σ τ)) :=
  let s := st.locals.getD asset_no default
  match lp.submit_order s order_id .Sell price qty order_type time_in_force st.cur_ts with
  | (.error e, _) => some (.error e)
  | (.ok _, s') =>
    let st' :=
      { st with
        locals := st.locals.set asset_no s'
        evs :=
          st.evs.update_exch_order asset_no (lp.earliest_send_order_timestamp s') }
    if wait then
      goto lp ep false fuel UNTIL_END_OF_DATA (.specified asset_no order_id) st'
    else some (.ok (true, st'))

/-- `<MultiAssetSingleExchangeBacktest as Bot>::submit_order`
(backtest.rs:795-823): hard-codes `Side::Sell` exactly as the `Backtest`
version does, and refreshes both order cells of the asset. -/
def submit_order [Inhabited σ] [Inhabited τ] (lp : LocalProc σ F MD)
    (ep : ExchProc τ) (fuel : Nat) (asset_no : Nat) (order : OrderRequest F)
    (wait : Bool) (st : BacktestState σ τ) :
    Option (Except BacktestError (Bool × BacktestState σ τ)) :=
  let s := st.locals.getD asset_no default
  match lp.submit_order s order.order_id .Sell order.price order.qty
      order.order_type order.time_in_force st.cur_ts with
  | (.error e, _) => some (.error e)
  | (.ok _, s') =>
    let st' :=
      { st with
        locals := st.locals.set asset_no s'
        evs :=
          (st.evs.update_exch_order asset_no
              (lp.earliest_send_order_timestamp s')).update_local_order asset_no
            (lp.earliest_recv_order_timestamp s') }
    if wait then
      goto lp ep false fuel UNTIL_END_OF_DATA (.specified asset_no order.order_id) st'
    else some (.ok (true, st'))

/-- `<MultiAssetSingleExchangeBacktest as Bot>::cancel` (backtest.rs:825-846):
refreshes both order cells of the asset. -/
def cancel [Inhabited σ] [Inhabited τ] (lp : LocalProc σ F MD)
    (ep : ExchProc τ) (fuel : Nat) (asset_no : Nat) (order_id : OrderId)
    (wait : Bool) (st : BacktestState σ τ) :
    Option (Except BacktestError (Bool × BacktestState σ τ)) :=
  let s := st.locals.getD asset_no default
  match lp.cancel s order_id st.cur_ts with
  | (.error e, _) => some (.error e)
  | (.ok _, s') =>
    let st' :=
      { st with
        locals := st.locals.set asset_no s'
        evs :=
          (st.evs.update_exch_order asset_no
              (lp.earliest_send_order_timestamp s')).update_local_order asset_no
            (lp.earliest_recv_order_timestamp s') }
    if wait then
      goto lp ep false fuel UNTIL_END_OF_DATA (.specified asset_no order_id) st'
    else some (.ok (true, st'))

end MultiAssetSingleExchangeBacktest

/-- `DataSource` (re-exported from `reader`, which is not among the sources):
either a file name or an in-memory buffer of events. -/
inductive DataSource (F : Type) where
  | File (filename : String)
  | Data (data : List (Event F))

/-- `ExchangeKind` from `src/hftbacktest/src/backtest/mod.rs`. -/
inductive ExchangeKind where
  | NoPartialFillExchange
  | PartialFillExchange
deriving DecidableEq

/-- Modelled from the spec (`order.rs` is not among the sources): an order bus
is a sequence of `(ready_timestamp, order id)` pairs; `OrderBus::new()` creates
an empty one.  For the builder only its construction and sharing matter. -/
structure OrderBus where
  msgs : List (Int × OrderId)
deriving DecidableEq

/-- `OrderBus::new()`. -/
def OrderBus.new : OrderBus := ⟨[]⟩

/-- Modelled from the spec (`state.rs` is not among the sources): the argument
record of `State::new(asset_type, maker_fee, taker_fee)`. -/
structure StateCtor (AT F : Type) where
  asset_type : AT
  maker_fee : F
  taker_fee : F

/-- Modelled from the spec (`proc` is not among the sources): the argument
record of `Local::new`, capturing exactly what the builder injects into the
local processor. -/
structure LocalCtor (LM AT MD F : Type) where
  reader : List (DataSource F)
  depth : MD
  state : StateCtor AT F
  order_latency : LM
  trade_len : Nat
  ob_local_to_exch : OrderBus
  ob_exch_to_local : OrderBus

/-- Modelled from the spec (`proc` is not among the sources): the argument
record of `NoPartialFillExchange::new` / `PartialFillExchange::new`, tagged by
the exchange kind the builder selected. -/
inductive ExchCtor (LM AT QM MD F : Type) where
  | NoPartialFillExchange (reader : List (DataSource F)) (depth : MD)
      (state : StateCtor AT F) (order_latency : LM) (queue_model : QM)
      (ob_exch_to_local : OrderBus) (ob_local_to_exch : OrderBus)
  | PartialFillExchange (reader : List (DataSource F)) (depth : MD)
      (state : StateCtor AT F) (order_latency : LM) (queue_model : QM)
      (ob_exch_to_local : OrderBus) (ob_local_to_exch : OrderBus)

/-- `Asset` from `src/hftbacktest/src/backtest/mod.rs`, with the boxed
processors represented by their construction records. -/
structure Asset (LM AT QM MD F : Type) where
  loc : LocalCtor LM AT MD F
  exch : ExchCtor LM AT QM MD F

/-- `AssetBuilder` from `src/hftbacktest/src/backtest/mod.rs`.  The `reader`
field accumulates the data sources added by `data`; `maker_fee`, `taker_fee`,
`exch_kind` and `trade_len` are plain fields initialized with defaults by
`new`, while the four `Option` fields start unset. -/
structure AssetBuilder (LM AT QM MD F : Type) where
  latency_model : Option LM
  asset_type : Option AT
  queue_model : Option QM
  depth_builder : Option (Unit → MD)
  reader : List (DataSource F)
  maker_fee : F
  taker_fee : F
  exch_kind : ExchangeKind
  trade_len : Nat

namespace AssetBuilder

variable {LM AT QM MD F : Type}

/-- `AssetBuilder::new` (mod.rs:118-133): empty reader, no models, fees `0.0`
(the designated zero of the opaque `f64` carrier), `NoPartialFillExchange`,
`trade_len = 0`. -/
def new [Inhabited F] : AssetBuilder LM AT QM MD F :=
  { latency_model := Option.none
    asset_type := Option.none
    queue_model := Option.none
    depth_builder := Option.none
    reader := []
    maker_fee := default
    taker_fee := default
    exch_kind := .NoPartialFillExchange
    trade_len := 0 }

/-- `AssetBuilder::data` (mod.rs:136-148). -/
def data (b : AssetBuilder LM AT QM MD F) (d : List (DataSource F)) :
    AssetBuilder LM AT QM MD F :=
  { b with reader := b.reader ++ d }

/-- `AssetBuilder::latency_model` setter (mod.rs:151-157). -/
def set_latency_model (b : AssetBuilder LM AT QM MD F) (latency_model : LM) :
    AssetBuilder LM AT QM MD F :=
  { b with latency_model := some latency_model }

/-- `AssetBuilder::asset_type` setter (mod.rs:159-165). -/
def set_asset_type (b : AssetBuilder LM AT QM MD F) (asset_type : AT) :
    AssetBuilder LM AT QM MD F :=
  { b with asset_type := some asset_type }

/-- `AssetBuilder::maker_fee` setter (mod.rs:167-169). -/
def set_maker_fee (b : AssetBuilder LM AT QM MD F) (maker_fee : F) :
    AssetBuilder LM AT QM MD F :=
  { b with maker_fee := maker_fee }

/-- `AssetBuilder::taker_fee` setter (mod.rs:172-174). -/
def set_taker_fee (b : AssetBuilder LM AT QM MD F) (taker_fee : F) :
    AssetBuilder LM AT QM MD F :=
  { b with taker_fee := taker_fee }

/-- `AssetBuilder::queue_model` setter (mod.rs:177-182). -/
def set_queue_model (b : AssetBuilder LM AT QM MD F) (queue_model : QM) :
    AssetBuilder LM AT QM MD F :=
  { b with queue_model := some queue_model }

/-- `AssetBuilder::depth` setter (mod.rs:185-193). -/
def set_depth (b : AssetBuilder LM AT QM MD F) (builder : Unit → MD) :
    AssetBuilder LM AT QM MD F :=
  { b with depth_builder := some builder }

/-- `AssetBuilder::exchange` setter (mod.rs:196-198). -/
def exchange (b : AssetBuilder LM AT QM MD F) (exch_kind : ExchangeKind) :
    AssetBuilder LM AT QM MD F :=
  { b with exch_kind := exch_kind }

/-- `AssetBuilder::trade_len` setter (mod.rs:202-204). -/
def set_trade_len (b : AssetBuilder LM AT QM MD F) (trade_len : Nat) :
    AssetBuilder LM AT QM MD F :=
  { b with trade_len := trade_len }

/-- `Option::ok_or`, used by the builder's required-field checks. -/
def okOr (o : Option α) (e : BuildError) : Except BuildError α :=
  match o with
  | some a => .ok a
  | Option.none => .error e

/-- `AssetBuilder::build` (mod.rs:207-280), in the source's exact check order:
two fresh order buses, then `depth`, `order_latency`, `asset_type` checks, the
local processor, then the (repeated) `order_latency` check, `queue_model`,
(repeated) `asset_type`, and the exchange processor per `exch_kind`. -/
def build (b : AssetBuilder LM AT QM MD F) :
    Except BuildError (Asset LM AT QM MD F) := do
  let ob_local_to_exch := OrderBus.new
  let ob_exch_to_local := OrderBus.new
  let create_depth ← okOr b.depth_builder (.BuilderIncomplete "depth")
  let order_latency ← okOr b.latency_model (.BuilderIncomplete "order_latency")
  let asset_type ← okOr b.asset_type (.BuilderIncomplete "asset_type")
  let loc : LocalCtor LM AT MD F :=
    { reader := b.reader
      depth := create_depth ()
      state := ⟨asset_type, b.maker_fee, b.taker_fee⟩
      order_latency := order_latency
      trade_len := b.trade_len
      ob_local_to_exch := ob_local_to_exch
      ob_exch_to_local := ob_exch_to_local }
  let order_latency ← okOr b.latency_model (.BuilderIncomplete "order_latency")
  let queue_model ← okOr b.queue_model (.BuilderIncomplete "queue_model")
  let asset_type ← okOr b.asset_type (.BuilderIncomplete "asset_type")
  match b.exch_kind with
  | .NoPartialFillExchange =>
    .ok
      ⟨loc,
        .NoPartialFillExchange b.reader (create_depth ())
          ⟨asset_type, b.maker_fee, b.taker_fee⟩ order_latency queue_model
          ob_exch_to_local ob_local_to_exch⟩
  | .PartialFillExchange =>
    .ok
      ⟨loc,
        .PartialFillExchange b.reader (create_depth ())
          ⟨asset_type, b.maker_fee, b.taker_fee⟩ order_latency queue_model
          ob_exch_to_local ob_local_to_exch⟩

end AssetBuilder

/-! ### Concrete processor instances

Used to instantiate the abstract processor interfaces in witnesses and
counterexamples.  They satisfy the interface contracts of spec §4.2/§4.3 on
the tiny scenarios used below. -/

/-- Minimum of a list of integers, `none` on the empty list. -/
def listMin : List Int → Option Int
  | [] => Option.none
  | t :: rest =>
    match listMin rest with
    | Option.none => some t
    | some m => some (min t m)

/-- State of the concrete test local processor: a feed of remaining local
timestamps, the exchange-to-local bus (ready timestamp, order id), the
local-to-exchange bus (ready timestamps), a constant entry latency, and a
record of the last side submitted. -/
structure CLocal where
  feed : List Int
  recvQ : List (Int × OrderId)
  sendQ : List Int
  lat : Int
  lastSide : Option Side
  inited : Bool
deriving DecidableEq, Inhabited

/-- A concrete `LocalProc` over `CLocal`: `initialize_data` peeks the first
feed timestamp, `process_data` consumes one and returns the next,
`process_recv_order` drains every bus message with `ready_ts ≤ now` and
reports whether the awaited id was among them, `submit_order`/`cancel` append
to the outbound bus at `now + lat`. -/
def cLocal : LocalProc CLocal Int Unit :=
  { initialize_data := fun s =>
      (match s.feed with
       | [] => .error .EndOfData
       | t :: _ => .ok t,
       { s with inited := true })
    process_data := fun s =>
      match s.feed with
      | [] => (.error .EndOfData, s)
      | _ :: rest =>
        match rest with
        | [] => (.error .EndOfData, { s with feed := rest })
        | t :: _ => (.ok (t, 0), { s with feed := rest })
    process_recv_order := fun s now wid =>
      let ready := s.recvQ.filter fun r => decide (r.1 ≤ now)
      let remaining := s.recvQ.filter fun r => decide (now < r.1)
      (.ok
        (match wid with
         | some w => ready.any fun r => r.2 == w
         | Option.none => false),
       { s with recvQ := remaining })
    submit_order := fun s _oid side _px _qty _ot _tif now =>
      (.ok (), { s with sendQ := s.sendQ ++ [now + s.lat], lastSide := some side })
    cancel := fun s _oid now =>
      (.ok (), { s with sendQ := s.sendQ ++ [now + s.lat] })
    earliest_send_order_timestamp := fun s => listMin s.sendQ
    earliest_recv_order_timestamp := fun s => listMin (s.recvQ.map Prod.fst)
    position := fun _ => 0
    state_values := fun _ => ⟨0, 0, 0⟩
    depth := fun _ => ()
    trade := fun _ => []
    orders := fun _ => []
    clear_last_trades := id
    clear_inactive_orders := id
    feed_latency := fun _ => Option.none
    order_latency := fun _ => Option.none }

/-- State of the concrete test exchange processor: just a feed of remaining
exchange timestamps. -/
structure CExch where
  feed : List Int
deriving DecidableEq, Inhabited

/-- A concrete `ExchProc` over `CExch` with no order traffic. -/
def cExch : ExchProc CExch :=
  { initialize_data := fun s =>
      (match s.feed with
       | [] => .error .EndOfData
       | t :: _ => .ok t,
       s)
    process_data := fun s =>
      match s.feed with
      | [] => (.error .EndOfData, s)
      | _ :: rest =>
        match rest with
        | [] => (.error .EndOfData, { s with feed := rest })
        | t :: _ => (.ok (t, 0), { s with feed := rest })
    process_recv_order := fun s _ _ => (.ok false, s)
    earliest_send_order_timestamp := fun _ => Option.none
    earliest_recv_order_timestamp := fun _ => Option.none }

/-- A trivial exchange processor over `Unit`: empty feed, no order traffic. -/
def tExch : ExchProc Unit :=
  { initialize_data := fun s => (.error .EndOfData, s)
    process_data := fun s => (.error .EndOfData, s)
    process_recv_order := fun s _ _ => (.ok false, s)
    earliest_send_order_timestamp := fun _ => Option.none
    earliest_recv_order_timestamp := fun _ => Option.none }

/-- A spy local processor whose state records the side of the last
`submit_order` call; every other operation leaves the state untouched and
reports no data and no pending orders. -/
def spyLocal : LocalProc (Option Side) Int Unit :=
  { initialize_data := fun s => (.error .EndOfData, s)
    process_data := fun s => (.error .EndOfData, s)
    process_recv_order := fun s _ _ => (.ok false, s)
    submit_order := fun _s _oid side _px _qty _ot _tif _now => (.ok (), some side)
    cancel := fun s _ _ => (.ok (), s)
    earliest_send_order_timestamp := fun _ => Option.none
    earliest_recv_order_timestamp := fun _ => Option.none
    position := fun _ => 0
    state_values := fun _ => ⟨0, 0, 0⟩
    depth := fun _ => ()
    trade := fun _ => []
    orders := fun _ => []
    clear_last_trades := id
    clear_inactive_orders := id
    feed_latency := fun _ => Option.none
    order_latency := fun _ => Option.none }

/-! ### Claims -/

/-- C1: both drivers' `submit_order` forward every request to the local
processor with side `Sell`, ignoring the side carried in the `OrderRequest`
(the result is invariant under changing the request's side, for every asset
index, wait flag and state), while `submit_buy_order` passes `Buy` and
`submit_sell_order` passes `Sell` (witnessed on the recording processor
`spyLocal`, for every request and state). -/
theorem C1_submit_order_always_passes_sell :
    (∀ (σ τ F MD : Type) [Inhabited σ] [Inhabited τ] (lp : LocalProc σ F MD)
       (ep : ExchProc τ) (fuel asset_no : Nat) (r : OrderRequest F) (s : Side)
       (wait : Bool) (st : BacktestState σ τ),
       Backtest.submit_order lp ep fuel asset_no { r with side := s } wait st =
         Backtest.submit_order lp ep fuel asset_no r wait st ∧
       MultiAssetSingleExchangeBacktest.submit_order lp ep fuel asset_no
           { r with side := s } wait st =
         MultiAssetSingleExchangeBacktest.submit_order lp ep fuel asset_no r wait st) ∧
    (∀ (fuel asset_no : Nat) (r : OrderRequest Int)
       (st : BacktestState (Option Side) Unit),
       Backtest.submit_order spyLocal tExch fuel asset_no r false st =
         some (.ok (true,
           { st with locals := st.locals.set asset_no (some Side.Sell) })) ∧
       Backtest.submit_buy_order spyLocal tExch fuel asset_no r.order_id r.price
           r.qty r.time_in_force r.order_type false st =
         some (.ok (true,
           { st with locals := st.locals.set asset_no (some Side.Buy) })) ∧
       Backtest.submit_sell_order spyLocal tExch fuel asset_no r.order_id r.price
           r.qty r.time_in_force r.order_type false st =
         some (.ok (true,
           { st with locals := st.locals.set asset_no (some Side.Sell) })) ∧
       MultiAssetSingleExchangeBacktest.submit_order spyLocal tExch fuel asset_no
           r false st =
         some (.ok (true,
           { st with
             locals := st.locals.set asset_no (some Side.Sell)
             evs :=
               (st.evs.update_exch_order asset_no Option.none).update_local_order
                 asset_no Option.none })) ∧
       MultiAssetSingleExchangeBacktest.submit_buy_order spyLocal tExch fuel
           asset_no r.order_id r.price r.qty r.time_in_force r.order_type false st =
         some (.ok (true,
           { st with
             locals := st.locals.set asset_no (some Side.Buy)
             evs := st.evs.update_exch_order asset_no Option.none })) ∧
       MultiAssetSingleExchangeBacktest.submit_sell_order spyLocal tExch fuel
           asset_no r.order_id r.price r.qty r.time_in_force r.order_type false st =
         some (.ok (true,
           { st with
             locals := st.locals.set asset_no (some Side.Sell)
             evs := st.evs.update_exch_order asset_no Option.none }))) := by
  constructor
  · intro σ τ F MD _ _ lp ep fuel asset_no r s wait st
    exact ⟨rfl, rfl⟩
  · intro fuel asset_no r st
    refine ⟨rfl, rfl, rfl, rfl, rfl, rfl⟩

/-- C10: each read-only accessor of the `Bot` surface unwraps
`self.local.get(asset_no)` and panics (modelled as `none`) precisely when
`asset_no ≥ num_assets`; under the precondition `asset_no < num_assets` each
returns a value, so the panic branch is unreachable. -/
theorem C10_accessors_panic_iff_asset_out_of_range {σ τ F MD : Type}
    (lp : LocalProc σ F MD) (st : BacktestState σ τ) (asset_no : Nat) :
    (Backtest.num_assets st ≤ asset_no →
      Backtest.position lp st asset_no = Option.none ∧
      Backtest.state_values lp st asset_no = Option.none ∧
      Backtest.depth lp st asset_no = Option.none ∧
      Backtest.trade lp st asset_no = Option.none ∧
      Backtest.orders lp st asset_no = Option.none ∧
      Backtest.feed_latency lp st asset_no = Option.none ∧
      Backtest.order_latency lp st asset_no = Option.none) ∧
    (asset_no < Backtest.num_assets st →
      (Backtest.position lp st asset_no).isSome = true ∧
      (Backtest.state_values lp st asset_no).isSome = true ∧
      (Backtest.depth lp st asset_no).isSome = true ∧
      (Backtest.trade lp st asset_no).isSome = true ∧
      (Backtest.orders lp st asset_no).isSome = true ∧
      (Backtest.feed_latency lp st asset_no).isSome = true ∧
      (Backtest.order_latency lp st asset_no).isSome = true) := by
  constructor
  · intro h
    have hg : st.locals.get? asset_no = Option.none :=
      List.get?_eq_none.mpr (h : st.locals.length ≤ asset_no)
    simp only [Backtest.position, Backtest.state_values, Backtest.depth,
      Backtest.trade, Backtest.orders, Backtest.feed_latency,
      Backtest.order_latency, hg, Option.map_none']
    trivial
  · intro h
    have hv : st.locals.get? asset_no = some (st.locals.get ⟨asset_no, h⟩) :=
      List.get?_eq_get (h : asset_no < st.locals.length)
    simp only [Backtest.position, Backtest.state_values, Backtest.depth,
      Backtest.trade, Backtest.orders, Backtest.feed_latency,
      Backtest.order_latency, hv, Option.map_some', Option.isSome_some]
    trivial

/-- A concrete one-asset backtest state used by witnesses. -/
def stW : BacktestState CLocal CExch :=
  { cur_ts := 0
    evs := EventSet.new 1
    locals := [⟨[5], [], [], 0, Option.none, false⟩]
    exch := [⟨[]⟩] }

/-- Witness for C10 at a concrete state: index `1` is out of range for the
one-asset state `stW` and the accessor panics (`none`); index `0` is in range
and the accessor returns a value. -/
theorem C10_accessors_witness :
    Backtest.num_assets stW ≤ 1 ∧ Backtest.position cLocal stW 1 = Option.none ∧
      0 < Backtest.num_assets stW ∧ (Backtest.position cLocal stW 0).isSome = true :=
  ⟨by decide,
   ((C10_accessors_panic_iff_asset_out_of_range cLocal stW 1).1 (by decide)).1,
   by decide,
   ((C10_accessors_panic_iff_asset_out_of_range cLocal stW 0).2 (by decide)).1⟩

/-- The exchange-to-local bus injected into the exchange processor. -/
def ExchCtor.ob_exch_to_local {LM AT QM MD F : Type} :
    ExchCtor LM AT QM MD F → OrderBus
  | .NoPartialFillExchange _ _ _ _ _ e2l _ => e2l
  | .PartialFillExchange _ _ _ _ _ e2l _ => e2l

/-- The local-to-exchange bus injected into the exchange processor. -/
def ExchCtor.ob_local_to_exch {LM AT QM MD F : Type} :
    ExchCtor LM AT QM MD F → OrderBus
  | .NoPartialFillExchange _ _ _ _ _ _ l2e => l2e
  | .PartialFillExchange _ _ _ _ _ _ l2e => l2e

/-- C6: `AssetBuilder::build` fails with `BuilderIncomplete(field)` exactly
when one of the required inputs (depth builder, latency model, asset type,
queue model) is unset, naming the first missing one in the source's check
order; the remaining builder inputs (data source list, fees, exchange kind,
trade-ring length) are initialized with defaults by `new` and never missing.
When all four are set, `build` returns an `Asset` whose local and exchange
processors share the two freshly created (empty) order buses. -/
theorem C6_build_fails_iff_required_field_missing {LM AT QM MD F : Type}
    (b : AssetBuilder LM AT QM MD F) :
    (∀ e, b.build = .error e ↔
      (b.depth_builder = Option.none ∧ e = .BuilderIncomplete "depth") ∨
      (b.depth_builder ≠ Option.none ∧ b.latency_model = Option.none ∧
        e = .BuilderIncomplete "order_latency") ∨
      (b.depth_builder ≠ Option.none ∧ b.latency_model ≠ Option.none ∧
        b.asset_type = Option.none ∧ e = .BuilderIncomplete "asset_type") ∨
      (b.depth_builder ≠ Option.none ∧ b.latency_model ≠ Option.none ∧
        b.asset_type ≠ Option.none ∧ b.queue_model = Option.none ∧
        e = .BuilderIncomplete "queue_model")) ∧
    (b.depth_builder ≠ Option.none → b.latency_model ≠ Option.none →
      b.asset_type ≠ Option.none → b.queue_model ≠ Option.none →
      ∃ a : Asset LM AT QM MD F, b.build = .ok a ∧
        a.loc.ob_local_to_exch = OrderBus.new ∧
        a.loc.ob_exch_to_local = OrderBus.new ∧
        a.exch.ob_local_to_exch = a.loc.ob_local_to_exch ∧
        a.exch.ob_exch_to_local = a.loc.ob_exch_to_local) := by
  cases hd : b.depth_builder with
  | none =>
    refine ⟨fun e => ?_, fun h _ _ _ => absurd rfl h⟩
    simp [AssetBuilder.build, AssetBuilder.okOr, Bind.bind, Except.bind, hd,
      eq_comm]
  | some cd =>
    cases hl : b.latency_model with
    | none =>
      refine ⟨fun e => ?_, fun _ h _ _ => absurd rfl h⟩
      simp [AssetBuilder.build, AssetBuilder.okOr, Bind.bind, Except.bind, hd,
        hl, eq_comm]
    | some lm =>
      cases ha : b.asset_type with
      | none =>
        refine ⟨fun e => ?_, fun _ _ h _ => absurd rfl h⟩
        simp [AssetBuilder.build, AssetBuilder.okOr, Bind.bind, Except.bind,
          hd, hl, ha, eq_comm]
      | some atv =>
        cases hq : b.queue_model with
        | none =>
          refine ⟨fun e => ?_, fun _ _ _ h => absurd rfl h⟩
          simp [AssetBuilder.build, AssetBuilder.okOr, Bind.bind, Except.bind,
            hd, hl, ha, hq, eq_comm]
        | some qm =>
          cases hk : b.exch_kind with
          | NoPartialFillExchange =>
            refine ⟨fun e => ?_, fun _ _ _ _ =>
              ⟨⟨⟨b.reader, cd (), ⟨atv, b.maker_fee, b.taker_fee⟩, lm,
                  b.trade_len, OrderBus.new, OrderBus.new⟩,
                .NoPartialFillExchange b.reader (cd ())
                  ⟨atv, b.maker_fee, b.taker_fee⟩ lm qm OrderBus.new
                  OrderBus.new⟩, ?_, rfl, rfl, rfl, rfl⟩⟩ <;>
              simp [AssetBuilder.build, AssetBuilder.okOr, Bind.bind,
                Except.bind, hd, hl, ha, hq, hk]
          | PartialFillExchange =>
            refine ⟨fun e => ?_, fun _ _ _ _ =>
              ⟨⟨⟨b.reader, cd (), ⟨atv, b.maker_fee, b.taker_fee⟩, lm,
                  b.trade_len, OrderBus.new, OrderBus.new⟩,
                .PartialFillExchange b.reader (cd ())
                  ⟨atv, b.maker_fee, b.taker_fee⟩ lm qm OrderBus.new
                  OrderBus.new⟩, ?_, rfl, rfl, rfl, rfl⟩⟩ <;>
              simp [AssetBuilder.build, AssetBuilder.okOr, Bind.bind,
                Except.bind, hd, hl, ha, hq, hk]

/-- A complete concrete builder configuration. -/
def bW : AssetBuilder Unit Unit Unit Unit Int :=
  { latency_model := some ()
    asset_type := some ()
    queue_model := some ()
    depth_builder := some fun _ => ()
    reader := []
    maker_fee := 0
    taker_fee := 0
    exch_kind := .NoPartialFillExchange
    trade_len := 0 }

/-- Witness for C6: the complete builder `bW` satisfies the four set-field
hypotheses and `build` succeeds on it with the shared fresh buses; dropping
its queue model makes `build` fail naming `queue_model`. -/
theorem C6_build_witness :
    (∃ a, bW.build = .ok a ∧
      a.loc.ob_local_to_exch = OrderBus.new ∧
      a.loc.ob_exch_to_local = OrderBus.new ∧
      a.exch.ob_local_to_exch = a.loc.ob_local_to_exch ∧
      a.exch.ob_exch_to_local = a.loc.ob_exch_to_local) ∧
    { bW with queue_model := (Option.none : Option Unit) }.build =
      .error (.BuilderIncomplete "queue_model") :=
  ⟨(C6_build_fails_iff_required_field_missing bW).2 (by simp [bW]) (by simp [bW])
    (by simp [bW]) (by simp [bW]),
   ((C6_build_fails_iff_required_field_missing
        { bW with queue_model := (Option.none : Option Unit) }).1
      (.BuilderIncomplete "queue_model")).2
    (Or.inr (Or.inr (Or.inr ⟨by simp [bW], by simp [bW], by simp [bW],
      rfl, rfl⟩)))⟩

/-- One-asset state with the uninitialized clock sentinel
(`cur_ts = i64::MAX`), a local feed holding one event at `t = 5`, and no
pending orders. -/
def stC2 : BacktestState CLocal CExch :=
  { cur_ts := i64MAX
    evs := EventSet.new 1
    locals := [⟨[5], [], [], 0, Option.none, false⟩]
    exch := [⟨[]⟩] }

/-- C2 counterexample: `wait_order_response` invoked while `cur_ts` still
holds the uninitialized sentinel does not run `initialize_data` and does not
set `cur_ts` to the earliest scheduled event: it returns `Ok(false)` with the
state untouched (the local feed unconsumed, `cur_ts` still `i64::MAX`), even
though initialization would have found an event at `t = 5` — contradicting
the claim, which demands that every time-advancing call (including
`wait_order_response`) first initializes and only returns `Ok(false)` when no
events exist. -/
theorem C2_counterexample_wait_order_response_skips_init :
    Backtest.wait_order_response cLocal cExch 5 0 1 10 stC2 =
      some (.ok (false, stC2)) ∧
    stC2.cur_ts = i64MAX ∧
    (Backtest.initialize_evs cLocal cExch stC2).map (fun s => s.evs.next) =
      .ok (some ⟨0, .LocalData, 5⟩) :=
  ⟨rfl, rfl, rfl⟩

/-- C2 as amended: only `elapse`, `wait_next_feed` and `goto_end` perform the
lazy initialization — invoked with `cur_ts = i64::MAX` they run
`initialize_data` on every local and exchange processor (`initialize_evs`)
and set `cur_ts` to the earliest scheduled event before running the loop,
returning `Ok(false)` when no event exists and propagating `initialize_evs`
errors; `wait_order_response` performs no initialization and runs the
scheduling loop directly with the uninitialized `cur_ts` (as do `submit_*` /
`cancel` with `wait = true`, whose loop entry C7 records). -/
theorem C2_lazy_init_only_in_elapse_wait_next_feed_goto_end
    {σ τ F MD : Type} [Inhabited σ] [Inhabited τ] (lp : LocalProc σ F MD)
    (ep : ExchProc τ) (fuel : Nat) (st st' : BacktestState σ τ)
    (hst : st.cur_ts = i64MAX) :
    (Backtest.initialize_evs lp ep st = .ok st' → st'.evs.next = Option.none →
      (∀ d, Backtest.elapse lp ep fuel d st = some (.ok (false, st'))) ∧
      (∀ b t, Backtest.wait_next_feed lp ep fuel b t st =
        some (.ok (false, st'))) ∧
      Backtest.goto_end lp ep fuel st = some (.ok (false, st'))) ∧
    (∀ ev, Backtest.initialize_evs lp ep st = .ok st' →
      st'.evs.next = some ev →
      (∀ d, Backtest.elapse lp ep fuel d st =
        Backtest.goto lp ep false fuel (wrapI64 (ev.timestamp + d)) .none
          { st' with cur_ts := ev.timestamp }) ∧
      (∀ t, Backtest.wait_next_feed lp ep fuel false t st =
        Backtest.goto lp ep true fuel (wrapI64 (ev.timestamp + t)) .none
          { st' with cur_ts := ev.timestamp }) ∧
      (∀ t, Backtest.wait_next_feed lp ep fuel true t st =
        Backtest.goto lp ep true fuel (wrapI64 (ev.timestamp + t)) .any
          { st' with cur_ts := ev.timestamp }) ∧
      Backtest.goto_end lp ep fuel st =
        Backtest.goto lp ep false fuel UNTIL_END_OF_DATA .none
          { st' with cur_ts := ev.timestamp }) ∧
    (∀ e, Backtest.initialize_evs lp ep st = .error e →
      ∀ d, Backtest.elapse lp ep fuel d st = some (.error e)) ∧
    (∀ a oid t, Backtest.wait_order_response lp ep fuel a oid t st =
      Backtest.goto lp ep false fuel (wrapI64 (i64MAX + t))
        (.specified a oid) st) := by
  refine ⟨?_, ?_, ?_, ?_⟩
  · intro hinit hnext
    refine ⟨fun d => ?_, fun b t => ?_, ?_⟩
    · simp [Backtest.elapse, hst, hinit, hnext]
    · cases b <;> simp [Backtest.wait_next_feed, hst, hinit, hnext]
    · simp [Backtest.goto_end, hst, hinit, hnext]
  · intro ev hinit hnext
    refine ⟨fun d => ?_, fun t => ?_, fun t => ?_, ?_⟩
    · simp [Backtest.elapse, hst, hinit, hnext]
    · simp [Backtest.wait_next_feed, hst, hinit, hnext]
    · simp [Backtest.wait_next_feed, hst, hinit, hnext]
    · simp [Backtest.goto_end, hst, hinit, hnext]
  · intro e hinit d
    simp [Backtest.elapse, hst, hinit]
  · intro a oid t
    simp [Backtest.wait_order_response, hst]

/-- One-asset state with the uninitialized sentinel and completely empty
feeds and buses. -/
def stEmpty : BacktestState CLocal CExch :=
  { cur_ts := i64MAX
    evs := EventSet.new 1
    locals := [⟨[], [], [], 0, Option.none, false⟩]
    exch := [⟨[]⟩] }

/-- `stEmpty` after `initialize_evs`: both processors report `EndOfData`, so
both data cells are invalidated and the local processor is marked primed. -/
def stEmptyInit : BacktestState CLocal CExch :=
  { cur_ts := i64MAX
    evs := ⟨[Option.none], [Option.none], [Option.none], [Option.none]⟩
    locals := [⟨[], [], [], 0, Option.none, true⟩]
    exch := [⟨[]⟩] }

/-- Witness for the amended C2 at concrete inputs: on `stEmpty` (no events)
`elapse` initializes and returns `Ok(false)`; on `stC2`,
`wait_order_response` reduces to a bare `goto` at the wrapped uninitialized
deadline. -/
theorem C2_amended_witness :
    Backtest.elapse cLocal cExch 5 7 stEmpty = some (.ok (false, stEmptyInit)) ∧
    Backtest.wait_order_response cLocal cExch 5 0 1 10 stC2 =
      Backtest.goto cLocal cExch false 5 (wrapI64 (i64MAX + 10))
        (.specified 0 1) stC2 :=
  ⟨((C2_lazy_init_only_in_elapse_wait_next_feed_goto_end cLocal cExch 5 stEmpty
      stEmptyInit rfl).1 rfl rfl).1 7,
   (C2_lazy_init_only_in_elapse_wait_next_feed_goto_end cLocal cExch 5 stC2
      stEmptyInit rfl).2.2.2 0 1 10⟩

/-- One-asset state after initialization: `cur_ts = 5`, empty feeds, and one
pending order response for order id `1` on the exchange-to-local bus, ready
at `t = 10`. -/
def stC3 : BacktestState CLocal CExch :=
  { cur_ts := 5
    evs := EventSet.new 1
    locals := [⟨[], [(10, 1)], [], 0, Option.none, true⟩]
    exch := [⟨[]⟩] }

/-- C3 at the failing input `cur_ts = 5 > 0`, `timeout = UNTIL_END_OF_DATA`:
the deadline computation `cur_ts + timeout` exceeds `i64::MAX` (a debug-mode
panic) and wraps to `4 - 2^63 < cur_ts`, a deadline earlier than every future
event, so `wait_order_response` returns `Ok(true)` immediately at that
negative `cur_ts` instead of waiting for the pending response at `t = 10` —
the sentinel does not disable the timeout, refuting the claim. -/
theorem C3_deadline_overflow_at_failing_input :
    stC3.cur_ts + UNTIL_END_OF_DATA > i64MAX ∧
    wrapI64 (stC3.cur_ts + UNTIL_END_OF_DATA) = 4 - 2 ^ 63 ∧
    (4 - 2 ^ 63 : Int) < stC3.cur_ts ∧
    Backtest.wait_order_response cLocal cExch 5 0 1 UNTIL_END_OF_DATA stC3 =
      some (.ok (true,
        { stC3 with
          cur_ts := 4 - 2 ^ 63
          evs := ⟨[Option.none], [Option.none], [some 10], [Option.none]⟩ })) :=
  ⟨by decide, by decide, by decide, rfl⟩

/-! ### Scheduling-loop lemmas -/

/-- The two drivers' loop bodies are the same function: the
`MultiAssetSingleExchangeBacktest` loop equals the `Backtest` loop. -/
theorem mase_gotoLoop_eq_backtest {σ τ F MD : Type} [Inhabited σ] [Inhabited τ]
    (lp : LocalProc σ F MD) (ep : ExchProc τ) (W : Bool)
    (w : WaitOrderResponse) :
    ∀ (fuel : Nat) (T : Int) (st : BacktestState σ τ),
      MultiAssetSingleExchangeBacktest.gotoLoop lp ep W w fuel T st =
        Backtest.gotoLoop lp ep W w fuel T st := by
  intro fuel
  induction fuel with
  | zero => intro T st; rfl
  | succ n ih =>
    intro T st
    rw [MultiAssetSingleExchangeBacktest.gotoLoop, Backtest.gotoLoop]
    cases hnext : st.evs.next with
    | none => rfl
    | some ev =>
      simp only
      split
      · rfl
      · have hd : MultiAssetSingleExchangeBacktest.dispatch lp ep W w ev T st =
            Backtest.dispatch lp ep W w ev T st := rfl
        rw [hd]
        cases Backtest.dispatch lp ep W w ev T st with
        | error e => rfl
        | ok p => exact ih p.1 p.2

/-- A successful dispatch leaves `cur_ts` unchanged and returns either the
deadline it was given or the dispatched event's timestamp. -/
theorem dispatch_ok_shape {σ τ F MD : Type} [Inhabited σ] [Inhabited τ]
    (lp : LocalProc σ F MD) (ep : ExchProc τ) (W : Bool) (w : WaitOrderResponse)
    (ev : EvsEvent) (T : Int) (st : BacktestState σ τ) (t' : Int)
    (st₂ : BacktestState σ τ)
    (h : Backtest.dispatch lp ep W w ev T st = .ok (t', st₂)) :
    st₂.cur_ts = st.cur_ts ∧ (t' = T ∨ t' = ev.timestamp) := by
  unfold Backtest.dispatch at h
  split at h <;> dsimp only at h <;> split at h <;>
    first
    | exact Except.noConfusion h
    | · simp only [Except.ok.injEq, Prod.mk.injEq] at h
        obtain ⟨h1, h2⟩ := h
        subst h1
        subst h2
        refine ⟨rfl, ?_⟩
        first
        | exact Or.inl rfl
        | · split
            · exact Or.inr rfl
            · exact Or.inl rfl

/-- Exit characterization of the scheduling loop: a non-error return is
`(true, st')` with `st'.cur_ts` the possibly-shortened deadline (never above
the deadline passed in) and the earliest still-pending event strictly later
than it, or `(false, st')` with `cur_ts` untouched and the Event Set
exhausted; there is no other non-error exit. -/
theorem gotoLoop_exit_shape {σ τ F MD : Type} [Inhabited σ] [Inhabited τ]
    (lp : LocalProc σ F MD) (ep : ExchProc τ) (W : Bool) (w : WaitOrderResponse) :
    ∀ (fuel : Nat) (T : Int) (st : BacktestState σ τ) (b : Bool)
      (st' : BacktestState σ τ),
      Backtest.gotoLoop lp ep W w fuel T st = some (.ok (b, st')) →
      (b = true ∧ st'.cur_ts ≤ T ∧
        ∃ ev, st'.evs.next = some ev ∧ st'.cur_ts < ev.timestamp) ∨
      (b = false ∧ st'.cur_ts = st.cur_ts ∧ st'.evs.next = Option.none) := by
  intro fuel
  induction fuel with
  | zero =>
    intro T st b st' h
    simp [Backtest.gotoLoop] at h
  | succ n ih =>
    intro T st b st' h
    rw [Backtest.gotoLoop] at h
    cases hnext : st.evs.next with
    | none =>
      simp only [hnext, Option.some.injEq, Except.ok.injEq, Prod.mk.injEq] at h
      obtain ⟨hb, hst⟩ := h
      subst hb
      subst hst
      exact Or.inr ⟨rfl, rfl, hnext⟩
    | some ev =>
      simp only [hnext] at h
      by_cases hgt : ev.timestamp > T
      · rw [if_pos hgt] at h
        simp only [Option.some.injEq, Except.ok.injEq, Prod.mk.injEq] at h
        obtain ⟨hb, hst⟩ := h
        subst hb
        subst hst
        exact Or.inl ⟨rfl, le_refl T, ev, hnext, hgt⟩
      · rw [if_neg hgt] at h
        cases hdisp : Backtest.dispatch lp ep W w ev T st with
        | error e => rw [hdisp] at h; simp at h
        | ok p =>
          rw [hdisp] at h
          obtain ⟨t₂, st₂⟩ := p
          obtain ⟨hcur, hdl⟩ := dispatch_ok_shape lp ep W w ev T st t₂ st₂ hdisp
          have ht₂ : t₂ ≤ T := by
            rcases hdl with h1 | h1
            · exact h1.le
            · exact h1.le.trans (not_lt.mp hgt)
          rcases ih t₂ st₂ b st' h with ⟨hb, hle, hex⟩ | ⟨hb, hcur', hnone⟩
          · exact Or.inl ⟨hb, hle.trans ht₂, hex⟩
          · exact Or.inr ⟨hb, hcur'.trans hcur, hnone⟩

/-- C4: for every deadline and wait mode, `Backtest::goto` (when it returns
without error) returns `Ok(true)` with `cur_ts` set to the possibly-shortened
deadline exactly when the earliest pending event's timestamp exceeds that
deadline, and `Ok(false)` (with `cur_ts` untouched) exactly when the Event
Set yields no event; there is no other non-error exit. -/
theorem C4_goto_exit_characterization {σ τ F MD : Type} [Inhabited σ]
    [Inhabited τ] (lp : LocalProc σ F MD) (ep : ExchProc τ) (W : Bool)
    (fuel : Nat) (T : Int) (w : WaitOrderResponse) (st : BacktestState σ τ)
    (b : Bool) (st' : BacktestState σ τ)
    (h : Backtest.goto lp ep W fuel T w st = some (.ok (b, st'))) :
    (b = true ∧ st'.cur_ts ≤ T ∧
      ∃ ev, st'.evs.next = some ev ∧ st'.cur_ts < ev.timestamp) ∨
    (b = false ∧ st'.cur_ts = st.cur_ts ∧ st'.evs.next = Option.none) :=
  gotoLoop_exit_shape lp ep W w fuel T
    { st with evs := Backtest.refreshLoop lp 0 st.locals st.evs } b st' h

/-- Witness for C4 at a concrete run: from `stC3` with deadline `7`, the
earliest pending event (the order response at `t = 10`) exceeds the
deadline, and `goto` returns `Ok(true)` with `cur_ts = 7`. -/
theorem C4_goto_witness :
    Backtest.goto cLocal cExch false 5 7 (.specified 0 1) stC3 =
      some (.ok (true,
        { stC3 with
          cur_ts := 7
          evs := ⟨[Option.none], [Option.none], [some 10], [Option.none]⟩ })) ∧
    ((true = true ∧
      ({ stC3 with
          cur_ts := (7 : Int)
          evs :=
            (⟨[Option.none], [Option.none], [some 10],
              [Option.none]⟩ : EventSet) } : BacktestState CLocal CExch).cur_ts ≤ 7 ∧
      ∃ ev, (⟨[Option.none], [Option.none], [some 10],
          [Option.none]⟩ : EventSet).next = some ev ∧ (7 : Int) < ev.timestamp) ∨
     (true = false ∧ (7 : Int) = stC3.cur_ts ∧
      (⟨[Option.none], [Option.none], [some 10],
        [Option.none]⟩ : EventSet).next = Option.none)) :=
  ⟨rfl,
   C4_goto_exit_characterization cLocal cExch false 5 7 (.specified 0 1) stC3
     true _ rfl⟩

/-- The local half of `initialize_evs` recovers `EndOfData` by invalidating
the asset's cell and never returns it as an error. -/
theorem initLocalLoop_no_eod {σ F MD : Type} (lp : LocalProc σ F MD) :
    ∀ (ls : List σ) (i : Nat) (evs : EventSet) (e : BacktestError),
      Backtest.initLocalLoop lp i ls evs = .error e → e ≠ .EndOfData := by
  intro ls
  induction ls with
  | nil =>
    intro i evs e h
    simp [Backtest.initLocalLoop] at h
  | cons s rest ih =>
    intro i evs e h
    rw [Backtest.initLocalLoop] at h
    rcases hinit : lp.initialize_data s with ⟨res, s1⟩
    rw [hinit] at h
    cases res with
    | ok ts =>
      dsimp only at h
      cases hrec : Backtest.initLocalLoop lp (i + 1) rest
          (evs.update_local_data i ts) with
      | ok p => rw [hrec] at h; exact absurd h (by simp [Except.map])
      | error e2 =>
        rw [hrec] at h
        simp only [Except.map] at h
        cases h
        exact ih (i + 1) _ _ hrec
    | error e1 =>
      cases e1 <;> dsimp only at h
      case EndOfData =>
        cases hrec : Backtest.initLocalLoop lp (i + 1) rest
            (evs.invalidate_local_data i) with
        | ok p => rw [hrec] at h; exact absurd h (by simp [Except.map])
        | error e2 =>
          rw [hrec] at h
          simp only [Except.map] at h
          cases h
          exact ih (i + 1) _ _ hrec
      all_goals (cases h; decide)


/-- The exchange half of `initialize_evs` recovers `EndOfData` likewise. -/
theorem initExchLoop_no_eod {τ : Type} (ep : ExchProc τ) :
    ∀ (ls : List τ) (i : Nat) (evs : EventSet) (e : BacktestError),
      Backtest.initExchLoop ep i ls evs = .error e → e ≠ .EndOfData := by
  intro ls
  induction ls with
  | nil =>
    intro i evs e h
    simp [Backtest.initExchLoop] at h
  | cons s rest ih =>
    intro i evs e h
    rw [Backtest.initExchLoop] at h
    rcases hinit : ep.initialize_data s with ⟨res, s1⟩
    rw [hinit] at h
    cases res with
    | ok ts =>
      dsimp only at h
      cases hrec : Backtest.initExchLoop ep (i + 1) rest
          (evs.update_exch_data i ts) with
      | ok p => rw [hrec] at h; exact absurd h (by simp [Except.map])
      | error e2 =>
        rw [hrec] at h
        simp only [Except.map] at h
        cases h
        exact ih (i + 1) _ _ hrec
    | error e1 =>
      cases e1 <;> dsimp only at h
      case EndOfData =>
        cases hrec : Backtest.initExchLoop ep (i + 1) rest
            (evs.invalidate_exch_data i) with
        | ok p => rw [hrec] at h; exact absurd h (by simp [Except.map])
        | error e2 =>
          rw [hrec] at h
          simp only [Except.map] at h
          cases h
          exact ih (i + 1) _ _ hrec
      all_goals (cases h; decide)

/-- If neither `process_recv_order` ever fails with `EndOfData` (the data
sides are recovered by the dispatch itself), a failing dispatch never
propagates `EndOfData`. -/
theorem dispatch_no_eod {σ τ F MD : Type} [Inhabited σ] [Inhabited τ]
    (lp : LocalProc σ F MD) (ep : ExchProc τ) (W : Bool) (w : WaitOrderResponse)
    (ev : EvsEvent) (T : Int) (st : BacktestState σ τ) (e : BacktestError)
    (hl : ∀ s t wid, (lp.process_recv_order s t wid).1 ≠ .error .EndOfData)
    (he : ∀ s t, (ep.process_recv_order s t Option.none).1 ≠ .error .EndOfData)
    (h : Backtest.dispatch lp ep W w ev T st = .error e) : e ≠ .EndOfData := by
  obtain ⟨a, k, ts⟩ := ev
  unfold Backtest.dispatch at h
  cases k <;> dsimp only at h
  case LocalData =>
    rcases hpd : lp.process_data (st.locals.getD a default) with ⟨res, s1⟩
    rw [hpd] at h
    cases res with
    | ok p =>
      obtain ⟨nts, k2⟩ := p
      exact Except.noConfusion h
    | error e1 =>
      cases e1 <;> dsimp only at h <;>
        first
        | exact Except.noConfusion h
        | (cases h; decide)
  case ExchData =>
    rcases hpd : ep.process_data (st.exch.getD a default) with ⟨res, s1⟩
    rw [hpd] at h
    cases res with
    | ok p =>
      obtain ⟨nts, k2⟩ := p
      exact Except.noConfusion h
    | error e1 =>
      cases e1 <;> dsimp only at h <;>
        first
        | exact Except.noConfusion h
        | (cases h; decide)
  case LocalOrder =>
    generalize (match w with
        | WaitOrderResponse.specified wa wi =>
          if a = wa then some wi else Option.none
        | _ => Option.none) = wid at h
    rcases hpr : lp.process_recv_order (st.locals.getD a default) ts wid
      with ⟨res, s1⟩
    rw [hpr] at h
    cases res with
    | ok b2 => exact Except.noConfusion h
    | error e1 =>
      cases h
      intro hc
      subst hc
      have := hl (st.locals.getD a default) ts wid
      rw [hpr] at this
      exact this rfl
  case ExchOrder =>
    rcases hpr : ep.process_recv_order (st.exch.getD a default) ts Option.none
      with ⟨res, s1⟩
    rw [hpr] at h
    cases res with
    | ok b2 => exact Except.noConfusion h
    | error e1 =>
      cases h
      intro hc
      subst hc
      have := he (st.exch.getD a default) ts
      rw [hpr] at this
      exact this rfl

/-- Under the same conditions the scheduling loop never errors with
`EndOfData`. -/
theorem gotoLoop_no_eod {σ τ F MD : Type} [Inhabited σ] [Inhabited τ]
    (lp : LocalProc σ F MD) (ep : ExchProc τ) (W : Bool) (w : WaitOrderResponse)
    (hl : ∀ s t wid, (lp.process_recv_order s t wid).1 ≠ .error .EndOfData)
    (he : ∀ s t, (ep.process_recv_order s t Option.none).1 ≠ .error .EndOfData) :
    ∀ (fuel : Nat) (T : Int) (st : BacktestState σ τ) (e : BacktestError),
      Backtest.gotoLoop lp ep W w fuel T st = some (.error e) →
      e ≠ .EndOfData := by
  intro fuel
  induction fuel with
  | zero =>
    intro T st e h
    simp [Backtest.gotoLoop] at h
  | succ n ih =>
    intro T st e h
    rw [Backtest.gotoLoop] at h
    cases hnext : st.evs.next with
    | none => simp [hnext] at h
    | some ev =>
      simp only [hnext] at h
      by_cases hgt : ev.timestamp > T
      · rw [if_pos hgt] at h
        simp at h
      · rw [if_neg hgt] at h
        cases hdisp : Backtest.dispatch lp ep W w ev T st with
        | error e1 =>
          rw [hdisp] at h
          simp only [Option.some.injEq, Except.error.injEq] at h
          subst h
          exact dispatch_no_eod lp ep W w ev T st _ hl he hdisp
        | ok p =>
          rw [hdisp] at h
          exact ih p.1 p.2 e h

/-- C5: `EndOfData` from `initialize_data` or `process_data` is recovered
locally — `initialize_evs` never returns it, and the dispatch of a
`LocalData` / `ExchData` event whose `process_data` fails with `EndOfData`
succeeds, invalidating only that (asset, stream) cell of the Event Set —
while every other processor error propagates out of the loop; consequently
(given that `process_recv_order` never returns `EndOfData`, which the loop
does not recover) `goto` never surfaces `EndOfData` to the caller. -/
theorem C5_eod_recovered {σ τ F MD : Type} [Inhabited σ] [Inhabited τ]
    (lp : LocalProc σ F MD) (ep : ExchProc τ) (W : Bool)
    (w : WaitOrderResponse) :
    (∀ (st : BacktestState σ τ) e,
      Backtest.initialize_evs lp ep st = .error e → e ≠ .EndOfData) ∧
    (∀ (ev : EvsEvent) (T : Int) (st : BacktestState σ τ) (s' : σ),
      ev.kind = .LocalData →
      lp.process_data (st.locals.getD ev.asset_no default) =
        (.error .EndOfData, s') →
      Backtest.dispatch lp ep W w ev T st =
        .ok (if W = true then ev.timestamp else T,
          { st with
            locals := st.locals.set ev.asset_no s'
            evs := st.evs.invalidate_local_data ev.asset_no })) ∧
    (∀ (ev : EvsEvent) (T : Int) (st : BacktestState σ τ) (s' : τ),
      ev.kind = .ExchData →
      ep.process_data (st.exch.getD ev.asset_no default) =
        (.error .EndOfData, s') →
      Backtest.dispatch lp ep W w ev T st =
        .ok (T,
          { st with
            exch := st.exch.set ev.asset_no s'
            evs :=
              (st.evs.invalidate_exch_data ev.asset_no).update_local_order
                ev.asset_no (ep.earliest_send_order_timestamp s') })) ∧
    ((∀ s t wid, (lp.process_recv_order s t wid).1 ≠ .error .EndOfData) →
      (∀ s t, (ep.process_recv_order s t Option.none).1 ≠ .error .EndOfData) →
      ∀ (fuel : Nat) (T : Int) (st : BacktestState σ τ) (e : BacktestError),
        Backtest.goto lp ep W fuel T w st = some (.error e) →
        e ≠ .EndOfData) := by
  refine ⟨?_, ?_, ?_, ?_⟩
  · intro st e h
    unfold Backtest.initialize_evs at h
    cases h1 : Backtest.initLocalLoop lp 0 st.locals st.evs with
    | error e1 =>
      rw [h1] at h
      cases h
      exact initLocalLoop_no_eod lp st.locals 0 st.evs _ h1
    | ok p =>
      rw [h1] at h
      dsimp only at h
      cases h2 : Backtest.initExchLoop ep 0 st.exch p.2 with
      | error e2 =>
        rw [h2] at h
        cases h
        exact initExchLoop_no_eod ep st.exch 0 p.2 _ h2
      | ok q =>
        rw [h2] at h
        dsimp only at h
        exact Except.noConfusion h
  · intro ev T st s' hk hpd
    obtain ⟨a, k, ts⟩ := ev
    cases hk
    unfold Backtest.dispatch
    dsimp only
    rw [hpd]
  · intro ev T st s' hk hpd
    obtain ⟨a, k, ts⟩ := ev
    cases hk
    unfold Backtest.dispatch
    dsimp only
    rw [hpd]
  · intro hl he fuel T st e h
    exact gotoLoop_no_eod lp ep W w hl he fuel T _ e h

/-- A local processor like `cLocal` whose `process_recv_order` fails with
`OrderNotFound`, to exhibit error propagation. -/
def eLocal : LocalProc CLocal Int Unit :=
  { cLocal with process_recv_order := fun s _ _ => (.error .OrderNotFound, s) }

/-- Witness for C5 at concrete inputs: dispatching a `LocalData` event whose
`process_data` hits `EndOfData` on `stEmpty` succeeds (invalidating the
already-empty cell), and a `goto` run over a processor whose
`process_recv_order` fails with `OrderNotFound` surfaces exactly that error,
which is not `EndOfData`. -/
theorem C5_witness :
    Backtest.dispatch cLocal cExch false .none ⟨0, .LocalData, 5⟩ 20 stEmpty =
      .ok (20, stEmpty) ∧
    Backtest.goto eLocal cExch false 5 20 .none stC3 =
      some (.error .OrderNotFound) ∧
    BacktestError.OrderNotFound ≠ .EndOfData :=
  ⟨(C5_eod_recovered cLocal cExch false .none).2.1 ⟨0, .LocalData, 5⟩ 20 stEmpty
      _ rfl rfl,
   rfl,
   (C5_eod_recovered eLocal cExch false .none).2.2.2
     (by intro s t wid; simp [eLocal])
     (by intro s t; simp [cExch]) 5 20 stC3 .OrderNotFound rfl⟩


/-- The awaited-order id the loop passes to `process_recv_order` for a
`LocalOrder` event of a given asset (the `wait_order_resp_id` computation at
backtest.rs:173-179). -/
def waitRespId (w : WaitOrderResponse) (asset_no : Nat) : Option OrderId :=
  match w with
  | .specified wait_order_asset_no wait_order_id =>
    if asset_no = wait_order_asset_no then some wait_order_id else Option.none
  | _ => Option.none

/-- C7: when a `LocalOrder` event is dispatched, the deadline is shortened
to that event's timestamp if and only if `process_recv_order` reported
observing the awaited response (`observed`) or the wait mode is `Any` (and
the awaited id passed down is the specified order exactly on its asset,
`waitRespId`); and `submit_*`/`cancel` with `wait = true` run the loop with
`WaitOrderResponse::Specified(asset, id)` and deadline `UNTIL_END_OF_DATA`,
so control returns as soon as that order's response is observed. -/
theorem C7_wait_shortens_deadline {σ τ F MD : Type} [Inhabited σ] [Inhabited τ]
    (lp : LocalProc σ F MD) (ep : ExchProc τ) (W : Bool)
    (w : WaitOrderResponse) :
    (∀ (ev : EvsEvent) (T : Int) (st : BacktestState σ τ) (observed : Bool)
       (s' : σ),
      ev.kind = .LocalOrder →
      lp.process_recv_order (st.locals.getD ev.asset_no default) ev.timestamp
          (waitRespId w ev.asset_no) = (.ok observed, s') →
      Backtest.dispatch lp ep W w ev T st =
        .ok (if observed = true ∨ w = .any then ev.timestamp else T,
          { st with
            locals := st.locals.set ev.asset_no s'
            evs :=
              st.evs.update_local_order ev.asset_no
                (lp.earliest_recv_order_timestamp s') })) ∧
    (∀ (fuel asset_no : Nat) (oid : OrderId) (px qty : F) (tif : TimeInForce)
       (ot : OrdType) (st : BacktestState σ τ) (u : Unit) (s' : σ),
      lp.submit_order (st.locals.getD asset_no default) oid .Buy px qty ot tif
          st.cur_ts = (.ok u, s') →
      Backtest.submit_buy_order lp ep fuel asset_no oid px qty tif ot true st =
        Backtest.goto lp ep false fuel UNTIL_END_OF_DATA
          (.specified asset_no oid)
          { st with locals := st.locals.set asset_no s' }) ∧
    (∀ (fuel asset_no : Nat) (oid : OrderId) (px qty : F) (tif : TimeInForce)
       (ot : OrdType) (st : BacktestState σ τ) (u : Unit) (s' : σ),
      lp.submit_order (st.locals.getD asset_no default) oid .Sell px qty ot tif
          st.cur_ts = (.ok u, s') →
      Backtest.submit_sell_order lp ep fuel asset_no oid px qty tif ot true st =
        Backtest.goto lp ep false fuel UNTIL_END_OF_DATA
          (.specified asset_no oid)
          { st with locals := st.locals.set asset_no s' }) ∧
    (∀ (fuel asset_no : Nat) (r : OrderRequest F) (st : BacktestState σ τ)
       (u : Unit) (s' : σ),
      lp.submit_order (st.locals.getD asset_no default) r.order_id .Sell
          r.price r.qty r.order_type r.time_in_force st.cur_ts = (.ok u, s') →
      Backtest.submit_order lp ep fuel asset_no r true st =
        Backtest.goto lp ep false fuel UNTIL_END_OF_DATA
          (.specified asset_no r.order_id)
          { st with locals := st.locals.set asset_no s' }) ∧
    (∀ (fuel asset_no : Nat) (oid : OrderId) (st : BacktestState σ τ)
       (u : Unit) (s' : σ),
      lp.cancel (st.locals.getD asset_no default) oid st.cur_ts = (.ok u, s') →
      Backtest.cancel lp ep fuel asset_no oid true st =
        Backtest.goto lp ep false fuel UNTIL_END_OF_DATA
          (.specified asset_no oid)
          { st with locals := st.locals.set asset_no s' }) := by
  refine ⟨?_, ?_, ?_, ?_, ?_⟩
  · intro ev T st observed s' hk hpr
    obtain ⟨a, k, ts⟩ := ev
    cases hk
    unfold waitRespId at hpr
    unfold Backtest.dispatch
    dsimp only
    rw [hpr]
  · intro fuel asset_no oid px qty tif ot st u s' hsub
    unfold Backtest.submit_buy_order
    dsimp only
    rw [hsub]
    rfl
  · intro fuel asset_no oid px qty tif ot st u s' hsub
    unfold Backtest.submit_sell_order
    dsimp only
    rw [hsub]
    rfl
  · intro fuel asset_no r st u s' hsub
    unfold Backtest.submit_order
    dsimp only
    rw [hsub]
    rfl
  · intro fuel asset_no oid st u s' hsub
    unfold Backtest.cancel
    dsimp only
    rw [hsub]
    rfl

/-- Witness for C7 at concrete inputs: on `stC3` the pending response for
the awaited order (asset 0, id 1) at `t = 10` is observed, so the dispatch
returns the shortened deadline `10`; and `submit_buy_order` with `wait =
true` reduces to the `goto` call with `Specified(0, 1)` and
`UNTIL_END_OF_DATA`. -/
theorem C7_witness :
    Backtest.dispatch cLocal cExch false (.specified 0 1) ⟨0, .LocalOrder, 10⟩
        20 stC3 =
      .ok (10,
        { stC3 with
          locals := [⟨[], [], [], 0, Option.none, true⟩]
          evs := stC3.evs.update_local_order 0 Option.none }) ∧
    Backtest.submit_buy_order cLocal cExch 5 0 1 (99 : Int) (1 : Int) .GTC
        .Limit true stC3 =
      Backtest.goto cLocal cExch false 5 UNTIL_END_OF_DATA (.specified 0 1)
        { stC3 with locals := [⟨[], [(10, 1)], [5], 0, some .Buy, true⟩] } :=
  ⟨(C7_wait_shortens_deadline cLocal cExch false (.specified 0 1)).1
      ⟨0, .LocalOrder, 10⟩ 20 stC3 true ⟨[], [], [], 0, Option.none, true⟩ rfl
      rfl,
   (C7_wait_shortens_deadline cLocal cExch false (.specified 0 1)).2.1 5 0 1 99
      1 .GTC .Limit stC3 () ⟨[], [(10, 1)], [5], 0, some .Buy, true⟩ rfl⟩

/-- Every populated cell of a cell column is at or after `t0`. -/
def cellsGE (t0 : Int) (l : List (Option Int)) : Prop :=
  ∀ t : Int, some t ∈ l → t0 ≤ t

/-- Every populated cell of the Event Set is at or after `t0` (the data
model invariant `cur_ts ≤ min(timestamp of any future event)` of spec §3). -/
def EvsGE (t0 : Int) (evs : EventSet) : Prop :=
  cellsGE t0 evs.localData ∧ cellsGE t0 evs.exchData ∧
    cellsGE t0 evs.localOrder ∧ cellsGE t0 evs.exchOrder

/-- The local processor only ever reports timestamps at or after `t0`:
next-event timestamps from `process_data` and both order-bus peeks (the
per-asset feed/bus monotonicity of spec §3). -/
def LocalGE {σ F MD : Type} (t0 : Int) (lp : LocalProc σ F MD) : Prop :=
  (∀ s p s', lp.process_data s = (.ok p, s') → t0 ≤ p.1) ∧
  (∀ s t, lp.earliest_send_order_timestamp s = some t → t0 ≤ t) ∧
  (∀ s t, lp.earliest_recv_order_timestamp s = some t → t0 ≤ t)

/-- The exchange processor counterpart of `LocalGE`. -/
def ExchGE {τ : Type} (t0 : Int) (ep : ExchProc τ) : Prop :=
  (∀ s p s', ep.process_data s = (.ok p, s') → t0 ≤ p.1) ∧
  (∀ s t, ep.earliest_send_order_timestamp s = some t → t0 ≤ t) ∧
  (∀ s t, ep.earliest_recv_order_timestamp s = some t → t0 ≤ t)

/-- Setting a cell to a value at or after `t0` preserves `cellsGE`. -/
theorem cellsGE_set {t0 : Int} {l : List (Option Int)} {v : Option Int}
    (hl : cellsGE t0 l) (hv : ∀ t : Int, v = some t → t0 ≤ t) (i : Nat) :
    cellsGE t0 (l.set i v) := by
  intro t ht
  rcases List.mem_or_eq_of_mem_set ht with h | h
  · exact hl t h
  · exact hv t h.symm

/-- `update_local_data` with a bounded timestamp preserves `EvsGE`. -/
theorem EvsGE_update_local_data {t0 ts : Int} {evs : EventSet} {a : Nat}
    (h : EvsGE t0 evs) (hts : t0 ≤ ts) :
    EvsGE t0 (evs.update_local_data a ts) :=
  ⟨cellsGE_set h.1 (fun t ht => by cases ht; exact hts) a, h.2.1, h.2.2.1, h.2.2.2⟩

/-- `invalidate_local_data` preserves `EvsGE`. -/
theorem EvsGE_invalidate_local_data {t0 : Int} {evs : EventSet} {a : Nat}
    (h : EvsGE t0 evs) : EvsGE t0 (evs.invalidate_local_data a) :=
  ⟨cellsGE_set h.1 (fun t ht => by cases ht) a, h.2.1, h.2.2.1, h.2.2.2⟩

/-- `update_exch_data` with a bounded timestamp preserves `EvsGE`. -/
theorem EvsGE_update_exch_data {t0 ts : Int} {evs : EventSet} {a : Nat}
    (h : EvsGE t0 evs) (hts : t0 ≤ ts) :
    EvsGE t0 (evs.update_exch_data a ts) :=
  ⟨h.1, cellsGE_set h.2.1 (fun t ht => by cases ht; exact hts) a, h.2.2.1, h.2.2.2⟩

/-- `invalidate_exch_data` preserves `EvsGE`. -/
theorem EvsGE_invalidate_exch_data {t0 : Int} {evs : EventSet} {a : Nat}
    (h : EvsGE t0 evs) : EvsGE t0 (evs.invalidate_exch_data a) :=
  ⟨h.1, cellsGE_set h.2.1 (fun t ht => by cases ht) a, h.2.2.1, h.2.2.2⟩

/-- `update_local_order` with a bounded peek preserves `EvsGE`. -/
theorem EvsGE_update_local_order {t0 : Int} {v : Option Int} {evs : EventSet}
    {a : Nat} (h : EvsGE t0 evs) (hv : ∀ t : Int, v = some t → t0 ≤ t) :
    EvsGE t0 (evs.update_local_order a v) :=
  ⟨h.1, h.2.1, cellsGE_set h.2.2.1 hv a, h.2.2.2⟩

/-- `update_exch_order` with a bounded peek preserves `EvsGE`. -/
theorem EvsGE_update_exch_order {t0 : Int} {v : Option Int} {evs : EventSet}
    {a : Nat} (h : EvsGE t0 evs) (hv : ∀ t : Int, v = some t → t0 ≤ t) :
    EvsGE t0 (evs.update_exch_order a v) :=
  ⟨h.1, h.2.1, h.2.2.1, cellsGE_set h.2.2.2 hv a⟩

/-- The minimum-selection fold of `EventSet.next` returns an element of the
list (or the accumulator). -/
theorem foldl_min_mem :
    ∀ (l : List EvsEvent) (acc : Option EvsEvent) (b : EvsEvent),
      l.foldl
        (fun best c =>
          match best with
          | Option.none => some c
          | some b => if c.timestamp < b.timestamp then some c else some b)
        acc = some b →
      b ∈ l ∨ acc = some b := by
  intro l
  induction l with
  | nil => intro acc b h; exact Or.inr h
  | cons c rest ih =>
    intro acc b h
    rw [List.foldl_cons] at h
    rcases ih _ b h with hmem | hacc
    · exact Or.inl (List.mem_cons_of_mem _ hmem)
    · cases acc with
      | none =>
        simp only [Option.some.injEq] at hacc
        exact Or.inl (hacc ▸ List.mem_cons_self c rest)
      | some a0 =>
        dsimp only at hacc
        split at hacc
        · simp only [Option.some.injEq] at hacc
          exact Or.inl (hacc ▸ List.mem_cons_self c rest)
        · exact Or.inr hacc

/-- A candidate of one stream kind carries the timestamp of a populated cell
of that column. -/
theorem mem_kindEvents_ts {cells : List (Option Int)} {k : EventIntentKind}
    {ev : EvsEvent} (h : ev ∈ EventSet.kindEvents cells k) :
    some ev.timestamp ∈ cells := by
  obtain ⟨ic, hic, hmap⟩ := List.mem_filterMap.mp h
  obtain ⟨t, hic2, hev⟩ := Option.map_eq_some'.mp hmap
  have hg : cells[ic.1]? = some ic.2 := List.mem_enum_iff_getElem?.mp hic
  rw [hic2] at hg
  have : ev.timestamp = t := by rw [← hev]
  rw [this]
  exact List.getElem?_mem hg

/-- Under `EvsGE`, the event selected by `EventSet.next` is at or after
`t0`. -/
theorem next_ge {t0 : Int} {evs : EventSet} {ev : EvsEvent}
    (hge : EvsGE t0 evs) (h : evs.next = some ev) : t0 ≤ ev.timestamp := by
  unfold EventSet.next at h
  rcases foldl_min_mem _ _ _ h with hmem | habs
  · unfold EventSet.candidates at hmem
    rcases List.mem_append.mp hmem with h1 | h1
    · rcases List.mem_append.mp h1 with h2 | h2
      · rcases List.mem_append.mp h2 with h3 | h3
        · exact hge.2.1 _ (mem_kindEvents_ts h3)
        · exact hge.1 _ (mem_kindEvents_ts h3)
      · exact hge.2.2.2 _ (mem_kindEvents_ts h2)
    · exact hge.2.2.1 _ (mem_kindEvents_ts h1)
  · exact absurd habs (by simp)

/-- A successful dispatch preserves `EvsGE` and returns a deadline at or
after `t0`, provided the processors respect `t0` and the dispatched event
does. -/
theorem dispatch_GE {σ τ F MD : Type} [Inhabited σ] [Inhabited τ]
    {lp : LocalProc σ F MD} {ep : ExchProc τ} {W : Bool}
    {w : WaitOrderResponse} {ev : EvsEvent} {T t0 t' : Int}
    {st st₂ : BacktestState σ τ}
    (hL : LocalGE t0 lp) (hE : ExchGE t0 ep) (hevs : EvsGE t0 st.evs)
    (hT : t0 ≤ T) (hts : t0 ≤ ev.timestamp)
    (h : Backtest.dispatch lp ep W w ev T st = .ok (t', st₂)) :
    EvsGE t0 st₂.evs ∧ t0 ≤ t' := by
  obtain ⟨a, k, ts⟩ := ev
  unfold Backtest.dispatch at h
  cases k <;> dsimp only at h
  case LocalData =>
    rcases hpd : lp.process_data (st.locals.getD a default) with ⟨res, s1⟩
    rw [hpd] at h
    cases res with
    | ok p =>
      obtain ⟨nts, k2⟩ := p
      dsimp only at h
      simp only [Except.ok.injEq, Prod.mk.injEq] at h
      obtain ⟨h1, h2⟩ := h
      subst h1
      subst h2
      refine ⟨EvsGE_update_local_data hevs (hL.1 _ _ _ hpd), ?_⟩
      split
      · exact hts
      · exact hT
    | error e1 =>
      cases e1 <;> dsimp only at h <;> first
      | exact Except.noConfusion h
      | · simp only [Except.ok.injEq, Prod.mk.injEq] at h
          obtain ⟨h1, h2⟩ := h
          subst h1
          subst h2
          refine ⟨EvsGE_invalidate_local_data hevs, ?_⟩
          split
          · exact hts
          · exact hT
  case LocalOrder =>
    generalize (match w with
        | WaitOrderResponse.specified wa wi =>
          if a = wa then some wi else Option.none
        | _ => Option.none) = wid at h
    rcases hpr : lp.process_recv_order (st.locals.getD a default) ts wid
      with ⟨res, s1⟩
    rw [hpr] at h
    cases res with
    | ok b2 =>
      simp only [Except.ok.injEq, Prod.mk.injEq] at h
      obtain ⟨h1, h2⟩ := h
      subst h1
      subst h2
      refine ⟨EvsGE_update_local_order hevs (fun t ht => hL.2.2 _ t ht), ?_⟩
      split
      · exact hts
      · exact hT
    | error e1 => exact Except.noConfusion h
  case ExchData =>
    rcases hpd : ep.process_data (st.exch.getD a default) with ⟨res, s1⟩
    rw [hpd] at h
    cases res with
    | ok p =>
      obtain ⟨nts, k2⟩ := p
      dsimp only at h
      simp only [Except.ok.injEq, Prod.mk.injEq] at h
      obtain ⟨h1, h2⟩ := h
      subst h1
      subst h2
      exact ⟨EvsGE_update_local_order
        (EvsGE_update_exch_data hevs (hE.1 _ _ _ hpd))
        (fun t ht => hE.2.1 _ t ht), hT⟩
    | error e1 =>
      cases e1 <;> dsimp only at h <;> first
      | exact Except.noConfusion h
      | · simp only [Except.ok.injEq, Prod.mk.injEq] at h
          obtain ⟨h1, h2⟩ := h
          subst h1
          subst h2
          exact ⟨EvsGE_update_local_order (EvsGE_invalidate_exch_data hevs)
            (fun t ht => hE.2.1 _ t ht), hT⟩
  case ExchOrder =>
    rcases hpr : ep.process_recv_order (st.exch.getD a default) ts Option.none
      with ⟨res, s1⟩
    rw [hpr] at h
    cases res with
    | ok b2 =>
      simp only [Except.ok.injEq, Prod.mk.injEq] at h
      obtain ⟨h1, h2⟩ := h
      subst h1
      subst h2
      exact ⟨EvsGE_update_exch_order hevs (fun t ht => hE.2.2 _ t ht), hT⟩
    | error e1 => exact Except.noConfusion h

/-- The scheduling loop never returns a `cur_ts` before `t0`: a `true` exit
sets it to a deadline at or after `t0`, a `false` exit leaves it unchanged. -/
theorem gotoLoop_monotone {σ τ F MD : Type} [Inhabited σ] [Inhabited τ]
    {lp : LocalProc σ F MD} {ep : ExchProc τ} {W : Bool}
    {w : WaitOrderResponse} {t0 : Int}
    (hL : LocalGE t0 lp) (hE : ExchGE t0 ep) :
    ∀ (fuel : Nat) (T : Int) (st : BacktestState σ τ) (b : Bool)
      (st' : BacktestState σ τ), t0 ≤ T → EvsGE t0 st.evs →
      Backtest.gotoLoop lp ep W w fuel T st = some (.ok (b, st')) →
      (b = true → t0 ≤ st'.cur_ts) ∧ (b = false → st'.cur_ts = st.cur_ts) := by
  intro fuel
  induction fuel with
  | zero =>
    intro T st b st' _ _ h
    simp [Backtest.gotoLoop] at h
  | succ n ih =>
    intro T st b st' hT hevs h
    rw [Backtest.gotoLoop] at h
    cases hnext : st.evs.next with
    | none =>
      simp only [hnext, Option.some.injEq, Except.ok.injEq, Prod.mk.injEq] at h
      obtain ⟨hb, hst⟩ := h
      subst hb
      subst hst
      exact ⟨fun hb => Bool.noConfusion hb, fun _ => rfl⟩
    | some ev =>
      simp only [hnext] at h
      by_cases hgt : ev.timestamp > T
      · rw [if_pos hgt] at h
        simp only [Option.some.injEq, Except.ok.injEq, Prod.mk.injEq] at h
        obtain ⟨hb, hst⟩ := h
        subst hb
        subst hst
        exact ⟨fun _ => hT, fun hb => Bool.noConfusion hb⟩
      · rw [if_neg hgt] at h
        cases hdisp : Backtest.dispatch lp ep W w ev T st with
        | error e1 => rw [hdisp] at h; simp at h
        | ok p =>
          rw [hdisp] at h
          obtain ⟨t₂, st₂⟩ := p
          obtain ⟨hge₂, ht₂⟩ :=
            dispatch_GE hL hE hevs hT (next_ge hevs hnext) hdisp
          obtain ⟨hcur, _⟩ := dispatch_ok_shape lp ep W w ev T st t₂ st₂ hdisp
          obtain ⟨htr, hfa⟩ := ih t₂ st₂ b st' ht₂ hge₂ h
          exact ⟨htr, fun hb => (hfa hb).trans hcur⟩

/-- The order-cell refresh at loop entry preserves `EvsGE`. -/
theorem refreshLoop_GE {σ F MD : Type} {lp : LocalProc σ F MD} {t0 : Int}
    (hL : LocalGE t0 lp) :
    ∀ (ls : List σ) (i : Nat) (evs : EventSet), EvsGE t0 evs →
      EvsGE t0 (Backtest.refreshLoop lp i ls evs) := by
  intro ls
  induction ls with
  | nil => intro i evs h; exact h
  | cons s rest ih =>
    intro i evs h
    rw [Backtest.refreshLoop]
    exact ih (i + 1) _
      (EvsGE_update_local_order
        (EvsGE_update_exch_order h (fun t ht => hL.2.1 _ t ht))
        (fun t ht => hL.2.2 _ t ht))

/-- `i64` addition that stays in range does not wrap. -/
theorem wrapI64_eq_self {x : Int} (h1 : i64MIN ≤ x) (h2 : x ≤ i64MAX) :
    wrapI64 x = x := by
  unfold wrapI64
  unfold i64MIN at h1
  unfold i64MAX at h2
  have h3 : (2 : Int) ^ 63 = 9223372036854775808 := by norm_num
  have h4 : (2 : Int) ^ 64 = 18446744073709551616 := by norm_num
  rw [h3, h4]
  rw [h3] at h1 h2
  omega

/-- C8 as amended: after initialization (`cur_ts` in the `i64` range and not
the sentinel), every time-advancing call whose deadline computation does not
overflow (`0 ≤ duration` and `cur_ts + duration ≤ i64::MAX`; `goto_end` uses
the constant `UNTIL_END_OF_DATA`) returns with `cur_ts` not below its entry
value, provided the processors and the Event Set respect the spec §3
invariant that no reported timestamp precedes `cur_ts`. -/
theorem C8_cur_ts_monotone_after_init {σ τ F MD : Type} [Inhabited σ]
    [Inhabited τ] (lp : LocalProc σ F MD) (ep : ExchProc τ)
    (st : BacktestState σ τ) (hne : st.cur_ts ≠ i64MAX)
    (hlb : i64MIN ≤ st.cur_ts) (hub : st.cur_ts ≤ i64MAX)
    (hL : LocalGE st.cur_ts lp) (hE : ExchGE st.cur_ts ep)
    (hevs : EvsGE st.cur_ts st.evs) :
    (∀ (fuel : Nat) (d : Int) (b : Bool) (st' : BacktestState σ τ),
      0 ≤ d → st.cur_ts + d ≤ i64MAX →
      Backtest.elapse lp ep fuel d st = some (.ok (b, st')) →
      st.cur_ts ≤ st'.cur_ts) ∧
    (∀ (fuel a : Nat) (oid : OrderId) (t : Int) (b : Bool)
       (st' : BacktestState σ τ),
      0 ≤ t → st.cur_ts + t ≤ i64MAX →
      Backtest.wait_order_response lp ep fuel a oid t st =
        some (.ok (b, st')) →
      st.cur_ts ≤ st'.cur_ts) ∧
    (∀ (fuel : Nat) (inc : Bool) (t : Int) (b : Bool)
       (st' : BacktestState σ τ),
      0 ≤ t → st.cur_ts + t ≤ i64MAX →
      Backtest.wait_next_feed lp ep fuel inc t st = some (.ok (b, st')) →
      st.cur_ts ≤ st'.cur_ts) ∧
    (∀ (fuel : Nat) (b : Bool) (st' : BacktestState σ τ),
      Backtest.goto_end lp ep fuel st = some (.ok (b, st')) →
      st.cur_ts ≤ st'.cur_ts) := by
  have key : ∀ (W : Bool) (w : WaitOrderResponse) (fuel : Nat) (T : Int)
      (b : Bool) (st' : BacktestState σ τ), st.cur_ts ≤ T →
      Backtest.goto lp ep W fuel T w st = some (.ok (b, st')) →
      st.cur_ts ≤ st'.cur_ts := by
    intro W w fuel T b st' hT h
    unfold Backtest.goto at h
    obtain ⟨htr, hfa⟩ := gotoLoop_monotone hL hE fuel T _ b st' hT
      (refreshLoop_GE hL st.locals 0 st.evs hevs) h
    cases b
    · rw [hfa rfl]
    · exact htr rfl
  refine ⟨?_, ?_, ?_, ?_⟩
  · intro fuel d b st' hd hsum h
    unfold Backtest.elapse at h
    rw [if_neg hne] at h
    rw [wrapI64_eq_self (le_trans hlb (le_add_of_nonneg_right hd)) hsum] at h
    exact key false .none fuel _ b st' (le_add_of_nonneg_right hd) h
  · intro fuel a oid t b st' ht hsum h
    unfold Backtest.wait_order_response at h
    rw [wrapI64_eq_self (le_trans hlb (le_add_of_nonneg_right ht)) hsum] at h
    exact key false (.specified a oid) fuel _ b st' (le_add_of_nonneg_right ht) h
  · intro fuel inc t b st' ht hsum h
    unfold Backtest.wait_next_feed at h
    rw [if_neg hne] at h
    cases inc
    · rw [if_neg (by simp)] at h
      rw [wrapI64_eq_self (le_trans hlb (le_add_of_nonneg_right ht)) hsum] at h
      exact key true .none fuel _ b st' (le_add_of_nonneg_right ht) h
    · rw [if_pos rfl] at h
      rw [wrapI64_eq_self (le_trans hlb (le_add_of_nonneg_right ht)) hsum] at h
      exact key true .any fuel _ b st' (le_add_of_nonneg_right ht) h
  · intro fuel b st' h
    unfold Backtest.goto_end at h
    rw [if_neg hne] at h
    exact key false .none fuel UNTIL_END_OF_DATA b st' hub h

/-- An initialized one-asset state: `cur_ts = 5`, next local data at `t = 6`. -/
def stC8 : BacktestState CLocal CExch :=
  { cur_ts := 5
    evs := ⟨[some 6], [Option.none], [Option.none], [Option.none]⟩
    locals := [⟨[6], [], [], 0, Option.none, true⟩]
    exch := [⟨[]⟩] }

/-- C8 counterexample: with the nonnegative duration `i64::MAX`, `elapse`
from the initialized state `stC8` wraps its deadline computation and returns
`Ok(true)` with `cur_ts = 4 - 2^63`, strictly below the entry `cur_ts = 5` —
simulated time moves backwards, refuting the claim as stated. -/
theorem C8_counterexample_elapse_overflow :
    (0 : Int) ≤ i64MAX ∧ stC8.cur_ts ≠ i64MAX ∧
    Backtest.elapse cLocal cExch 5 i64MAX stC8 =
      some (.ok (true, { stC8 with cur_ts := 4 - 2 ^ 63 })) ∧
    (4 - 2 ^ 63 : Int) < stC8.cur_ts :=
  ⟨by decide, by decide, rfl, by decide⟩

/-- A one-asset state over the spy processor with next local data at `t = 7`. -/
def stC8w : BacktestState (Option Side) Unit :=
  { cur_ts := 5
    evs := ⟨[some 7], [Option.none], [Option.none], [Option.none]⟩
    locals := [Option.none]
    exch := [()] }

/-- `spyLocal` reports no timestamps at all, so it respects any bound. -/
theorem spyLocal_GE (t0 : Int) : LocalGE t0 spyLocal :=
  ⟨fun s p s' h => by simp [spyLocal] at h,
   fun s t h => by simp [spyLocal] at h,
   fun s t h => by simp [spyLocal] at h⟩

/-- `tExch` reports no timestamps at all, so it respects any bound. -/
theorem tExch_GE (t0 : Int) : ExchGE t0 tExch :=
  ⟨fun s p s' h => by simp [tExch] at h,
   fun s t h => by simp [tExch] at h,
   fun s t h => by simp [tExch] at h⟩

/-- Witness for the amended C8: `elapse(1)` from `stC8w` (entry
`cur_ts = 5`) returns `Ok(true)` with `cur_ts = 6 ≥ 5`. -/
theorem C8_witness :
    Backtest.elapse spyLocal tExch 3 1 stC8w =
      some (.ok (true, { stC8w with cur_ts := 6 })) ∧
    stC8w.cur_ts ≤ (6 : Int) :=
  ⟨rfl,
   (C8_cur_ts_monotone_after_init spyLocal tExch stC8w (by decide) (by decide)
      (by decide) (spyLocal_GE _) (tExch_GE _)
      ⟨fun t ht => by simp [stC8w] at ht; subst ht; decide,
       fun t ht => by simp [stC8w] at ht,
       fun t ht => by simp [stC8w] at ht,
       fun t ht => by simp [stC8w] at ht⟩).1 3 1 true
     { stC8w with cur_ts := 6 } (by decide) (by decide) rfl⟩

/-- The two drivers' order-cell refresh loops are the same function. -/
theorem mase_refreshLoop_eq {σ F MD : Type} (lp : LocalProc σ F MD) :
    ∀ (ls : List σ) (i : Nat) (evs : EventSet),
      MultiAssetSingleExchangeBacktest.refreshLoop lp i ls evs =
        Backtest.refreshLoop lp i ls evs := by
  intro ls
  induction ls with
  | nil => intro i evs; rfl
  | cons s rest ih =>
    intro i evs
    rw [MultiAssetSingleExchangeBacktest.refreshLoop, Backtest.refreshLoop]
    exact ih (i + 1) _

/-- Observational equivalence of driver states: equal clock, equal processor
states, equal data cells; the order cells (rewritten from the bus peeks at
every loop entry) are unconstrained beyond the structural invariant that each
order column has one cell per asset. -/
def ObsEq {σ τ : Type} (st₁ st₂ : BacktestState σ τ) : Prop :=
  st₁.cur_ts = st₂.cur_ts ∧ st₁.locals = st₂.locals ∧ st₁.exch = st₂.exch ∧
  st₁.evs.localData = st₂.evs.localData ∧
  st₁.evs.exchData = st₂.evs.exchData ∧
  st₁.evs.localOrder.length = st₁.locals.length ∧
  st₂.evs.localOrder.length = st₂.locals.length ∧
  st₁.evs.exchOrder.length = st₁.locals.length ∧
  st₂.evs.exchOrder.length = st₂.locals.length

/-- The loop-entry refresh overwrites every order cell, so it coincides on
Event Sets that agree on the data columns and have one order cell per
asset. -/
theorem refreshLoop_congr {σ F MD : Type} (lp : LocalProc σ F MD) :
    ∀ (ls : List σ) (i : Nat) (evs₁ evs₂ : EventSet),
      evs₁.localData = evs₂.localData → evs₁.exchData = evs₂.exchData →
      (∀ j, j < i → evs₁.localOrder[j]? = evs₂.localOrder[j]?) →
      (∀ j, j < i → evs₁.exchOrder[j]? = evs₂.exchOrder[j]?) →
      evs₁.localOrder.length = i + ls.length →
      evs₂.localOrder.length = i + ls.length →
      evs₁.exchOrder.length = i + ls.length →
      evs₂.exchOrder.length = i + ls.length →
      Backtest.refreshLoop lp i ls evs₁ = Backtest.refreshLoop lp i ls evs₂ := by
  intro ls
  induction ls with
  | nil =>
    intro i evs₁ evs₂ hld hed hlo hxo hl1 hl2 hl3 hl4
    obtain ⟨ld1, ed1, lo1, xo1⟩ := evs₁
    obtain ⟨ld2, ed2, lo2, xo2⟩ := evs₂
    dsimp only at *
    simp only [List.length_nil, Nat.add_zero] at hl1 hl2 hl3 hl4
    subst hld
    subst hed
    have hlo' : lo1 = lo2 := by
      refine List.ext_getElem? fun j => ?_
      by_cases hj : j < i
      · exact hlo j hj
      · rw [List.getElem?_eq_none (by omega), List.getElem?_eq_none (by omega)]
    have hxo' : xo1 = xo2 := by
      refine List.ext_getElem? fun j => ?_
      by_cases hj : j < i
      · exact hxo j hj
      · rw [List.getElem?_eq_none (by omega), List.getElem?_eq_none (by omega)]
    rw [hlo', hxo']
  | cons s rest ih =>
    intro i evs₁ evs₂ hld hed hlo hxo hl1 hl2 hl3 hl4
    simp only [List.length_cons] at hl1 hl2 hl3 hl4
    rw [Backtest.refreshLoop, Backtest.refreshLoop]
    apply ih (i + 1)
    · exact hld
    · exact hed
    · intro j hj
      dsimp only [EventSet.update_local_order, EventSet.update_exch_order]
      by_cases hji : j = i
      · subst hji
        rw [List.getElem?_set_self', List.getElem?_set_self']
        have b1 : j < evs₁.localOrder.length := by omega
        have b2 : j < evs₂.localOrder.length := by omega
        simp [b1, b2]
      · rw [List.getElem?_set_ne (fun hc => hji hc.symm),
          List.getElem?_set_ne (fun hc => hji hc.symm)]
        exact hlo j (by omega)
    · intro j hj
      dsimp only [EventSet.update_local_order, EventSet.update_exch_order]
      by_cases hji : j = i
      · subst hji
        rw [List.getElem?_set_self', List.getElem?_set_self']
        have b1 : j < evs₁.exchOrder.length := by omega
        have b2 : j < evs₂.exchOrder.length := by omega
        simp [b1, b2]
      · rw [List.getElem?_set_ne (fun hc => hji hc.symm),
          List.getElem?_set_ne (fun hc => hji hc.symm)]
        exact hxo j (by omega)
    · simp only [EventSet.update_local_order, EventSet.update_exch_order,
        List.length_set]
      omega
    · simp only [EventSet.update_local_order, EventSet.update_exch_order,
        List.length_set]
      omega
    · simp only [EventSet.update_local_order, EventSet.update_exch_order,
        List.length_set]
      omega
    · simp only [EventSet.update_local_order, EventSet.update_exch_order,
        List.length_set]
      omega

/-- Observationally equivalent states become equal after the loop-entry
refresh. -/
theorem refreshed_states_eq {σ τ F MD : Type} (lp : LocalProc σ F MD)
    {st₁ st₂ : BacktestState σ τ} (h : ObsEq st₁ st₂) :
    ({ st₁ with evs := Backtest.refreshLoop lp 0 st₁.locals st₁.evs } :
        BacktestState σ τ) =
      { st₂ with evs := Backtest.refreshLoop lp 0 st₂.locals st₂.evs } := by
  obtain ⟨hc, hl, he, hld, hed, h1, h2, h3, h4⟩ := h
  obtain ⟨c1, e1, l1, x1⟩ := st₁
  obtain ⟨c2, e2, l2, x2⟩ := st₂
  dsimp only at *
  subst hc
  subst hl
  subst he
  congr 1
  exact refreshLoop_congr lp l1 0 e1 e2 hld hed
    (fun j hj => absurd hj (Nat.not_lt_zero j))
    (fun j hj => absurd hj (Nat.not_lt_zero j))
    (by omega) (by omega) (by omega) (by omega)

/-- The two drivers' `goto` functions agree on observationally equivalent
states. -/
theorem goto_obs_eq {σ τ F MD : Type} [Inhabited σ] [Inhabited τ]
    (lp : LocalProc σ F MD) (ep : ExchProc τ) (W : Bool) (fuel : Nat)
    (T : Int) (w : WaitOrderResponse) {st₁ st₂ : BacktestState σ τ}
    (h : ObsEq st₁ st₂) :
    Backtest.goto lp ep W fuel T w st₁ =
      MultiAssetSingleExchangeBacktest.goto lp ep W fuel T w st₂ := by
  unfold Backtest.goto MultiAssetSingleExchangeBacktest.goto
  rw [mase_gotoLoop_eq_backtest, mase_refreshLoop_eq]
  rw [refreshed_states_eq lp h]

/-- C9 as amended: once initialized (`cur_ts ≠ i64::MAX`), `Backtest` and
`MultiAssetSingleExchangeBacktest` driven by the same processors are
observably equivalent from observationally equivalent states: every
time-advancing call returns identical results and identical states, every
`submit_*`/`cancel` with `wait = true` returns identical results, every
successful `submit` with `wait = false` returns the same value with states
that again differ only in the order cells the next loop entry overwrites
(the extra Event Set refreshes of the single-exchange variant), and the
read-only accessors agree.  Before initialization the extra refreshes are
observable (see the counterexample). -/
theorem C9_drivers_observably_equivalent_after_init {σ τ F MD : Type}
    [Inhabited σ] [Inhabited τ] (lp : LocalProc σ F MD) (ep : ExchProc τ)
    {st₁ st₂ : BacktestState σ τ} (h : ObsEq st₁ st₂)
    (hne : st₁.cur_ts ≠ i64MAX) :
    (∀ fuel (d : Int), Backtest.elapse lp ep fuel d st₁ =
      MultiAssetSingleExchangeBacktest.elapse lp ep fuel d st₂) ∧
    (∀ fuel a oid (t : Int),
      Backtest.wait_order_response lp ep fuel a oid t st₁ =
        MultiAssetSingleExchangeBacktest.wait_order_response lp ep fuel a oid t
          st₂) ∧
    (∀ fuel inc (t : Int),
      Backtest.wait_next_feed lp ep fuel inc t st₁ =
        MultiAssetSingleExchangeBacktest.wait_next_feed lp ep fuel inc t st₂) ∧
    (∀ fuel a oid (px qty : F) tif ot,
      Backtest.submit_buy_order lp ep fuel a oid px qty tif ot true st₁ =
        MultiAssetSingleExchangeBacktest.submit_buy_order lp ep fuel a oid px
          qty tif ot true st₂) ∧
    (∀ fuel a oid (px qty : F) tif ot,
      Backtest.submit_sell_order lp ep fuel a oid px qty tif ot true st₁ =
        MultiAssetSingleExchangeBacktest.submit_sell_order lp ep fuel a oid px
          qty tif ot true st₂) ∧
    (∀ fuel a (r : OrderRequest F),
      Backtest.submit_order lp ep fuel a r true st₁ =
        MultiAssetSingleExchangeBacktest.submit_order lp ep fuel a r true st₂) ∧
    (∀ fuel a oid,
      Backtest.cancel lp ep fuel a oid true st₁ =
        MultiAssetSingleExchangeBacktest.cancel lp ep fuel a oid true st₂) ∧
    (∀ fuel a oid (px qty : F) tif ot (u : Unit) s',
      lp.submit_order (st₁.locals.getD a default) oid .Buy px qty ot tif
          st₁.cur_ts = (.ok u, s') →
      Backtest.submit_buy_order lp ep fuel a oid px qty tif ot false st₁ =
        some (.ok (true, { st₁ with locals := st₁.locals.set a s' })) ∧
      MultiAssetSingleExchangeBacktest.submit_buy_order lp ep fuel a oid px qty
          tif ot false st₂ =
        some (.ok (true,
          { st₂ with
            locals := st₂.locals.set a s'
            evs :=
              st₂.evs.update_exch_order a
                (lp.earliest_send_order_timestamp s') })) ∧
      ObsEq { st₁ with locals := st₁.locals.set a s' }
        { st₂ with
          locals := st₂.locals.set a s'
          evs :=
            st₂.evs.update_exch_order a
              (lp.earliest_send_order_timestamp s') }) ∧
    (∀ fuel a (r : OrderRequest F) (u : Unit) s',
      lp.submit_order (st₁.locals.getD a default) r.order_id .Sell r.price
          r.qty r.order_type r.time_in_force st₁.cur_ts = (.ok u, s') →
      Backtest.submit_order lp ep fuel a r false st₁ =
        some (.ok (true, { st₁ with locals := st₁.locals.set a s' })) ∧
      MultiAssetSingleExchangeBacktest.submit_order lp ep fuel a r false st₂ =
        some (.ok (true,
          { st₂ with
            locals := st₂.locals.set a s'
            evs :=
              (st₂.evs.update_exch_order a
                  (lp.earliest_send_order_timestamp s')).update_local_order a
                (lp.earliest_recv_order_timestamp s') })) ∧
      ObsEq { st₁ with locals := st₁.locals.set a s' }
        { st₂ with
          locals := st₂.locals.set a s'
          evs :=
            (st₂.evs.update_exch_order a
                (lp.earliest_send_order_timestamp s')).update_local_order a
              (lp.earliest_recv_order_timestamp s') }) ∧
    (Backtest.current_timestamp st₁ =
        Backtest.current_timestamp st₂ ∧
      Backtest.num_assets st₁ = Backtest.num_assets st₂ ∧
      ∀ a, Backtest.position lp st₁ a = Backtest.position lp st₂ a ∧
        Backtest.state_values lp st₁ a = Backtest.state_values lp st₂ a ∧
        Backtest.orders lp st₁ a = Backtest.orders lp st₂ a ∧
        Backtest.trade lp st₁ a = Backtest.trade lp st₂ a) := by
  have hc := h.1
  have hl := h.2.1
  have he := h.2.2.1
  have hld := h.2.2.2.1
  have hed := h.2.2.2.2.1
  have len1 := h.2.2.2.2.2.1
  have len2 := h.2.2.2.2.2.2.1
  have len3 := h.2.2.2.2.2.2.2.1
  have len4 := h.2.2.2.2.2.2.2.2
  have hne₂ : st₂.cur_ts ≠ i64MAX := hc ▸ hne
  have hlen : st₁.locals.length = st₂.locals.length := by rw [hl]
  refine ⟨?_, ?_, ?_, ?_, ?_, ?_, ?_, ?_, ?_, ?_⟩
  · intro fuel d
    unfold Backtest.elapse MultiAssetSingleExchangeBacktest.elapse
    rw [if_neg hne, if_neg hne₂, ← hc]
    exact goto_obs_eq lp ep false fuel _ .none h
  · intro fuel a oid t
    unfold Backtest.wait_order_response
      MultiAssetSingleExchangeBacktest.wait_order_response
    rw [← hc]
    exact goto_obs_eq lp ep false fuel _ (.specified a oid) h
  · intro fuel inc t
    unfold Backtest.wait_next_feed
      MultiAssetSingleExchangeBacktest.wait_next_feed
    rw [if_neg hne, if_neg hne₂, ← hc]
    cases inc
    · rw [if_neg (by simp), if_neg (by simp)]
      exact goto_obs_eq lp ep true fuel _ .none h
    · rw [if_pos rfl, if_pos rfl]
      exact goto_obs_eq lp ep true fuel _ .any h
  · intro fuel a oid px qty tif ot
    unfold Backtest.submit_buy_order
      MultiAssetSingleExchangeBacktest.submit_buy_order
    rw [← hl, ← hc]
    dsimp only
    rcases hsub : lp.submit_order (st₁.locals.getD a default) oid .Buy px qty
        ot tif st₁.cur_ts with ⟨res, s'⟩
    cases res with
    | error e => rfl
    | ok u =>
      dsimp only
      refine goto_obs_eq lp ep false fuel _ (.specified a oid) ?_
      refine ⟨rfl, rfl, he, hld, hed, ?_, ?_, ?_, ?_⟩ <;>
        simp only [EventSet.update_exch_order, List.length_set] <;> omega
  · intro fuel a oid px qty tif ot
    unfold Backtest.submit_sell_order
      MultiAssetSingleExchangeBacktest.submit_sell_order
    rw [← hl, ← hc]
    dsimp only
    rcases hsub : lp.submit_order (st₁.locals.getD a default) oid .Sell px qty
        ot tif st₁.cur_ts with ⟨res, s'⟩
    cases res with
    | error e => rfl
    | ok u =>
      dsimp only
      refine goto_obs_eq lp ep false fuel _ (.specified a oid) ?_
      refine ⟨rfl, rfl, he, hld, hed, ?_, ?_, ?_, ?_⟩ <;>
        simp only [EventSet.update_exch_order, List.length_set] <;> omega
  · intro fuel a r
    unfold Backtest.submit_order MultiAssetSingleExchangeBacktest.submit_order
    rw [← hl, ← hc]
    dsimp only
    rcases hsub : lp.submit_order (st₁.locals.getD a default) r.order_id .Sell
        r.price r.qty r.order_type r.time_in_force st₁.cur_ts with ⟨res, s'⟩
    cases res with
    | error e => rfl
    | ok u =>
      dsimp only
      refine goto_obs_eq lp ep false fuel _ (.specified a r.order_id) ?_
      refine ⟨rfl, rfl, he, hld, hed, ?_, ?_, ?_, ?_⟩ <;>
        simp only [EventSet.update_local_order, EventSet.update_exch_order,
          List.length_set] <;> omega
  · intro fuel a oid
    unfold Backtest.cancel MultiAssetSingleExchangeBacktest.cancel
    rw [← hl, ← hc]
    dsimp only
    rcases hsub : lp.cancel (st₁.locals.getD a default) oid st₁.cur_ts
      with ⟨res, s'⟩
    cases res with
    | error e => rfl
    | ok u =>
      dsimp only
      refine goto_obs_eq lp ep false fuel _ (.specified a oid) ?_
      refine ⟨rfl, rfl, he, hld, hed, ?_, ?_, ?_, ?_⟩ <;>
        simp only [EventSet.update_local_order, EventSet.update_exch_order,
          List.length_set] <;> omega
  · intro fuel a oid px qty tif ot u s' hsub
    refine ⟨?_, ?_, ?_⟩
    · unfold Backtest.submit_buy_order
      dsimp only
      rw [hsub]
      rfl
    · unfold MultiAssetSingleExchangeBacktest.submit_buy_order
      dsimp only
      rw [← hl, ← hc, hsub]
      rfl
    · refine ⟨hc, by rw [hl], he, hld, hed, ?_, ?_, ?_, ?_⟩ <;>
        simp only [EventSet.update_exch_order, List.length_set] <;> omega
  · intro fuel a r u s' hsub
    refine ⟨?_, ?_, ?_⟩
    · unfold Backtest.submit_order
      dsimp only
      rw [hsub]
      rfl
    · unfold MultiAssetSingleExchangeBacktest.submit_order
      dsimp only
      rw [← hl, ← hc, hsub]
      rfl
    · refine ⟨hc, by rw [hl], he, hld, hed, ?_, ?_, ?_, ?_⟩ <;>
        simp only [EventSet.update_local_order, EventSet.update_exch_order,
          List.length_set] <;> omega
  · refine ⟨hc, ?_, fun a => ?_⟩
    · unfold Backtest.num_assets
      rw [hl]
    · unfold Backtest.position Backtest.state_values Backtest.orders
        Backtest.trade
      rw [hl]
      exact ⟨rfl, rfl, rfl, rfl⟩
/-- A fresh (uninitialized) one-asset state with empty feeds and zero
latency. -/
def stC9 : BacktestState CLocal CExch :=
  { cur_ts := i64MAX, evs := EventSet.new 1,
    locals := [⟨[], [], [], 0, Option.none, false⟩], exch := [⟨[]⟩] }
/-- `stC9` after `Backtest::submit_buy_order(wait=false)`: the order sits on
the outbound bus (ready at `i64::MAX`, the uninitialized clock plus zero
latency) and the Event Set is untouched. -/
def bt1 : BacktestState CLocal CExch :=
  { stC9 with locals := [⟨[], [], [i64MAX], 0, some .Buy, false⟩] }
/-- `stC9` after the same call on the single-exchange driver: additionally
the exchange-order cell was refreshed to the bus peek. -/
def mase1 : BacktestState CLocal CExch :=
  { stC9 with
    locals := [⟨[], [], [i64MAX], 0, some .Buy, false⟩]
    evs := ⟨[Option.none], [Option.none], [Option.none], [some i64MAX]⟩ }
/-- `bt1` after `elapse(10)`: lazy initialization finds no events (the extra
order-bus entry is invisible to `Backtest`, whose Event Set was never
refreshed), so the call returns `Ok(false)`. -/
def btF : BacktestState CLocal CExch :=
  { bt1 with locals := [⟨[], [], [i64MAX], 0, some .Buy, true⟩] }

/-- `mase1` after `elapse(10)`: the refreshed exchange-order cell makes
`next()` yield an event, so initialization sets `cur_ts = i64::MAX` and the
loop returns `Ok(true)` at the wrapped deadline `i64::MIN + 9`. -/
def maseF : BacktestState CLocal CExch :=
  { mase1 with
    cur_ts := i64MIN + 9
    locals := [⟨[], [], [i64MAX], 0, some .Buy, true⟩]
    evs := ⟨[Option.none], [Option.none], [Option.none], [some i64MAX]⟩ }

/-- C9 counterexample: with identical processors and the identical call
sequence `submit_buy_order(0, 1, wait=false)` then `elapse(10)` issued before
any initializing call, `Backtest` returns `Ok(false)` while
`MultiAssetSingleExchangeBacktest` returns `Ok(true)` (with different final
`cur_ts`): the extra Event Set refreshes inside the single-exchange variant's
`submit_*` are observable, refuting the claim as stated. -/
theorem C9_counterexample_pre_init_divergence :
    Backtest.submit_buy_order cLocal cExch 5 0 1 (100 : Int) 1 .GTC .Limit
        false stC9 = some (.ok (true, bt1)) ∧
    MultiAssetSingleExchangeBacktest.submit_buy_order cLocal cExch 5 0 1
        (100 : Int) 1 .GTC .Limit false stC9 = some (.ok (true, mase1)) ∧
    Backtest.elapse cLocal cExch 5 10 bt1 = some (.ok (false, btF)) ∧
    MultiAssetSingleExchangeBacktest.elapse cLocal cExch 5 10 mase1 =
      some (.ok (true, maseF)) ∧
    btF.cur_ts ≠ maseF.cur_ts :=
  ⟨rfl, rfl, rfl, rfl, by decide⟩

/-- A concrete initialized state for the C9 witness. -/
def stC9w1 : BacktestState CLocal CExch :=
  { cur_ts := 5
    evs := ⟨[some 7], [Option.none], [Option.none], [Option.none]⟩
    locals := [⟨[7], [], [], 0, Option.none, true⟩]
    exch := [⟨[]⟩] }

/-- The same state with stale junk in both order cells. -/
def stC9w2 : BacktestState CLocal CExch :=
  { stC9w1 with evs := ⟨[some 7], [Option.none], [some 999], [some 999]⟩ }

/-- Witness for the amended C9 at concrete inputs: the two states are
observationally equivalent though their order cells differ, and `elapse(1)`
gives identical results on the two drivers. -/
theorem C9_equiv_witness :
    ObsEq stC9w1 stC9w2 ∧ stC9w1.cur_ts ≠ i64MAX ∧
    Backtest.elapse cLocal cExch 3 1 stC9w1 =
      MultiAssetSingleExchangeBacktest.elapse cLocal cExch 3 1 stC9w2 :=
  ⟨⟨rfl, rfl, rfl, rfl, rfl, rfl, rfl, rfl, rfl⟩, by decide,
   (C9_drivers_observably_equivalent_after_init cLocal cExch
      ⟨rfl, rfl, rfl, rfl, rfl, rfl, rfl, rfl, rfl⟩ (by decide)).1 3 1⟩

end HftSpec
